import Mathlib

/-!
Verification of the STYX belief-computation core (evidence engine, witness
registry and aggregator, partition detector, finality engine, oracle facade).

Modelling conventions:
- Go float64 values are modelled as exact rationals: every float64 value is a
  rational number, and the arithmetic of the source is embedded as exact
  field arithmetic on those rationals.
- The single call to math.Sqrt (in the aggregator's disagreement measure)
  produces irrational values, so the aggregator pipeline from that point on,
  and the oracle query results built from it, are modelled over the reals.
- Go uint64 counters (logical timestamps, node ids, millisecond counts) are
  modelled as natural numbers; none of the verified claims exercises 64-bit
  wraparound.
- Go maps are modelled as functions into Option; Go slices as lists.
- The reader-writer locks of the source serialise each public operation; the
  embedding models each operation as a pure state-passing function on the
  component state, which is the behaviour of the serialised operations.
-/

namespace Styx

/-! ## types package: NodeID, Confidence, Belief (types/confidence.go, belief source) -/

/-- types.NodeID: pair of base identifier and rebirth generation. -/
structure NodeID where
  Base : Nat
  Generation : Nat
deriving DecidableEq

/-- types.NewNodeID: generation starts at 0. -/
def NewNodeID (base : Nat) : NodeID := ⟨base, 0⟩

/-- types.BeliefState: dominant state of a belief distribution. -/
inductive BeliefState where
  | StateUnknown
  | StateAlive
  | StateDead
deriving DecidableEq

/-- types.CertaintyThreshold. -/
def CertaintyThreshold : ℚ := 0.95

/-- types.DominantMargin. -/
def DominantMargin : ℚ := 0.1

/-- types.BeliefSumEpsilon. -/
def BeliefSumEpsilon : ℚ := 1e-9

/-- types.Confidence is a float64 validated at construction; the raw value is
modelled as a rational, validation as types.NewConfidence below. NaN cannot
arise among rationals, so only the range checks remain. -/
def NewConfidence (value : ℚ) : Option ℚ :=
  if value < 0 then none
  else if 1 < value then none
  else some value

/-- types.Belief: distribution over alive / dead / unknown. The structure
itself is unvalidated (like the Go struct); types.NewBelief validates. -/
structure Belief where
  alive : ℚ
  dead : ℚ
  unknown : ℚ
deriving DecidableEq

/-- types.NewBelief: sum must be 1 within BeliefSumEpsilon, each component a
valid Confidence. -/
def NewBelief (alive dead unknown : ℚ) : Option Belief :=
  if BeliefSumEpsilon < |alive + dead + unknown - 1| then none
  else
    match NewConfidence alive, NewConfidence dead, NewConfidence unknown with
    | some a, some d, some u => some ⟨a, d, u⟩
    | _, _, _ => none

/-- types.UnknownBelief: pure uncertainty (0,0,1). -/
def UnknownBelief : Belief := ⟨0, 0, 1⟩

/-- types.Belief.Dominant: the state with the highest confidence, by margin
DominantMargin; StateUnknown if there is no clear winner. -/
def Belief.Dominant (b : Belief) : BeliefState :=
  if b.dead + DominantMargin < b.alive ∧ b.unknown + DominantMargin < b.alive then
    .StateAlive
  else if b.alive + DominantMargin < b.dead ∧ b.unknown + DominantMargin < b.dead then
    .StateDead
  else
    .StateUnknown

/-! ## time package: logical timestamps (part_005) -/

/-- time.LogicalTimestamp.AgeSince: age of an event relative to now;
0 for future events. -/
def AgeSince (t now : Nat) : Nat :=
  if now < t then 0 else now - t

/-! ## evidence package (evidence/evidence_set.go) -/

/-- evidence.EvidenceKind. -/
inductive EvidenceKind where
  | KindDirectResponse
  | KindTimeout
  | KindWitnessReport
  | KindCausalEvent
  | KindSchedulingJitter
  | KindNetworkInstability
deriving DecidableEq

/-- evidence.EvidenceDetails: kind-specific payload (all fields present on the
Go struct; unused fields are zero-valued). -/
structure EvidenceDetails where
  LatencyMS : Nat
  ExpectedMS : Nat
  WaitedMS : Nat
  Witness : NodeID
  ReportedState : BeliefState
  WitnessConf : ℚ
  EventID : Nat
  ObservedDelayMS : Nat
  PacketLossRate : ℚ
  LatencyVarianceMS : Nat
deriving DecidableEq

/-- The zero value of evidence.EvidenceDetails (Go composite literals zero the
omitted fields). -/
def emptyDetails : EvidenceDetails :=
  ⟨0, 0, 0, ⟨0, 0⟩, .StateUnknown, 0, 0, 0, 0, 0⟩

/-- evidence.Evidence: one observation. -/
structure Evidence where
  Kind : EvidenceKind
  Timestamp : Nat
  Weight : ℚ
  Source : NodeID
  Target : NodeID
  Details : EvidenceDetails
deriving DecidableEq

/-- evidence.NewDirectResponse: weight from latency buckets. -/
def NewDirectResponse (ts latencyMS : Nat) (source target : NodeID) : Evidence :=
  let weight : ℚ :=
    if 100 ≤ latencyMS ∧ latencyMS < 1000 then 0.8
    else if 1000 ≤ latencyMS then 0.6
    else 1
  ⟨.KindDirectResponse, ts, weight, source, target, { emptyDetails with LatencyMS := latencyMS }⟩

/-- evidence.NewTimeout: weak evidence with weight from the waited/expected
ratio. In Go the ratio is a float64 division: with expectedMS = 0 it yields
+Inf when waitedMS > 0 (so both comparisons succeed, weight 0.3) and NaN when
waitedMS = 0 (so both comparisons fail, weight 0.1); the branches below embed
exactly those IEEE comparison outcomes. -/
def NewTimeout (ts expectedMS waitedMS : Nat) (source target : NodeID) : Evidence :=
  let weight : ℚ :=
    if expectedMS = 0 then
      if waitedMS = 0 then 0.1 else 0.3
    else
      if (10 : ℚ) < (waitedMS : ℚ) / (expectedMS : ℚ) then 0.3
      else if (3 : ℚ) < (waitedMS : ℚ) / (expectedMS : ℚ) then 0.2
      else 0.1
  ⟨.KindTimeout, ts, weight, source, target,
    { emptyDetails with ExpectedMS := expectedMS, WaitedMS := waitedMS }⟩

/-- evidence.NewCausalEvent: weight 1. -/
def NewCausalEvent (ts eventID : Nat) (source target : NodeID) : Evidence :=
  ⟨.KindCausalEvent, ts, 1, source, target, { emptyDetails with EventID := eventID }⟩

/-- evidence.NewSchedulingJitter. -/
def NewSchedulingJitter (ts delayMS : Nat) (source target : NodeID) : Evidence :=
  let weight : ℚ := if 1000 < delayMS then 0.4 else 0.2
  ⟨.KindSchedulingJitter, ts, weight, source, target,
    { emptyDetails with ObservedDelayMS := delayMS }⟩

/-- evidence.Evidence.SuggestsAlive. -/
def Evidence.SuggestsAlive (e : Evidence) : Bool :=
  e.Kind == .KindDirectResponse || e.Kind == .KindCausalEvent

/-- evidence.Evidence.SuggestsDead. -/
def Evidence.SuggestsDead (e : Evidence) : Bool :=
  e.Kind == .KindTimeout

/-- evidence.pow: the source's hand-rolled power function. It multiplies the
base ⌊exp⌋ times and linearly interpolates the remaining fractional part
(result *= 1 + frac*(base-1)); for exp < 0 the loop and the fractional branch
are both skipped, leaving 1. -/
def pow (base exp : ℚ) : ℚ :=
  if exp = 0 then 1
  else
    let n : Nat := if 1 ≤ exp then (⌊exp⌋).toNat else 0
    let rest : ℚ := exp - n
    base ^ n * (if 0 < rest then 1 + rest * (base - 1) else 1)

/-- evidence.Evidence.EffectiveWeight: weight adjusted for age decay. -/
def Evidence.EffectiveWeight (e : Evidence) (now halfLife : Nat) : ℚ :=
  let age := AgeSince e.Timestamp now
  let decayFactor := pow 0.5 ((age : ℚ) / (halfLife : ℚ))
  e.Weight * decayFactor

/-- evidence.DefaultHalfLife. -/
def DefaultHalfLife : Nat := 100

/-- evidence.EvidenceSet: append-only evidence plus a half-life. -/
structure EvidenceSet where
  evidence : List Evidence
  halfLife : Nat

/-- evidence.NewEvidenceSet. -/
def NewEvidenceSet : EvidenceSet := ⟨[], DefaultHalfLife⟩

/-- evidence.WithHalfLife. -/
def WithHalfLife (halfLife : Nat) : EvidenceSet := ⟨[], halfLife⟩

/-- evidence.EvidenceSet.Add (append-only). -/
def EvidenceSet.Add (es : EvidenceSet) (e : Evidence) : EvidenceSet :=
  ⟨es.evidence ++ [e], es.halfLife⟩

/-- The loop of ComputeBelief accumulates the total effective weight. -/
def EvidenceSet.totalWeight (es : EvidenceSet) (now : Nat) : ℚ :=
  (es.evidence.map (fun e => e.EffectiveWeight now es.halfLife)).sum

/-- The loop of ComputeBelief accumulates the effective weight of
alive-suggesting evidence. -/
def EvidenceSet.aliveWeight (es : EvidenceSet) (now : Nat) : ℚ :=
  (es.evidence.map (fun e =>
    if e.SuggestsAlive then e.EffectiveWeight now es.halfLife else 0)).sum

/-- The loop of ComputeBelief accumulates the effective weight of
dead-suggesting evidence (the else-if branch of the Go loop). -/
def EvidenceSet.deadWeight (es : EvidenceSet) (now : Nat) : ℚ :=
  (es.evidence.map (fun e =>
    if e.SuggestsAlive then 0
    else if e.SuggestsDead then e.EffectiveWeight now es.halfLife else 0)).sum

/-- evidence.EvidenceSet.ComputeBelief: aggregate all evidence into a belief
distribution (certainty cap, conflict widening, unknown floor). -/
def EvidenceSet.ComputeBelief (es : EvidenceSet) (now : Nat) : Belief :=
  if es.evidence.isEmpty then UnknownBelief
  else
    let totalWeight := es.totalWeight now
    let aliveWeight := es.aliveWeight now
    let deadWeight := es.deadWeight now
    if totalWeight < 1e-10 then UnknownBelief
    else
      let maxCertainty := min (totalWeight / (totalWeight + 1)) 0.9
      let aliveRatio := aliveWeight / totalWeight
      let deadRatio := deadWeight / totalWeight
      let conflictFactor : ℚ :=
        if 0 < aliveWeight ∧ 0 < deadWeight then
          1 - (min aliveWeight deadWeight / max aliveWeight deadWeight) * 0.5
        else 1
      let aliveConf := aliveRatio * maxCertainty * conflictFactor
      let deadConf := deadRatio * maxCertainty * conflictFactor
      let unknownConf := 1 - aliveConf - deadConf
      let aliveConf2 := if unknownConf < 0.05 then aliveConf - (0.05 - unknownConf) / 2 else aliveConf
      let deadConf2 := if unknownConf < 0.05 then deadConf - (0.05 - unknownConf) / 2 else deadConf
      let unknownConf2 := if unknownConf < 0.05 then (0.05 : ℚ) else unknownConf
      match NewBelief aliveConf2 deadConf2 unknownConf2 with
      | some b => b
      | none => UnknownBelief

/-! ## witness package: registry and trust dynamics (part_006) -/

/-- witness.MaxTrust. -/
def MaxTrust : ℚ := 1

/-- witness.MinTrust. -/
def MinTrust : ℚ := 0.1

/-- witness.DefaultTrust. -/
def DefaultTrust : ℚ := 0.8

/-- witness.DecayRate. -/
def DecayRate : ℚ := 0.1

/-- witness.RecoveryRate. -/
def RecoveryRate : ℚ := 0.05

/-- witness.WitnessRecord. -/
structure WitnessRecord where
  ID : NodeID
  Trust : ℚ
  CorrectReports : Nat
  WrongReports : Nat
  LastReport : Belief
deriving DecidableEq

/-- witness.Registry: map from node id to witness record. -/
structure Registry where
  witnesses : NodeID → Option WitnessRecord

/-- witness.NewRegistry. -/
def NewRegistry : Registry := ⟨fun _ => none⟩

/-- witness.Registry.Register: idempotent, default trust for new witnesses.
The zero-valued LastReport of the Go struct literal is the zero Belief. -/
def Registry.Register (r : Registry) (id : NodeID) : Registry :=
  match r.witnesses id with
  | some _ => r
  | none => ⟨fun j => if j = id then some ⟨id, DefaultTrust, 0, 0, ⟨0, 0, 0⟩⟩ else r.witnesses j⟩

/-- witness.Registry.GetTrust: DefaultTrust for unknown witnesses. -/
def Registry.GetTrust (r : Registry) (id : NodeID) : ℚ :=
  match r.witnesses id with
  | some w => w.Trust
  | none => DefaultTrust

/-- witness.Registry.getOrCreate. -/
def Registry.getOrCreate (r : Registry) (id : NodeID) : WitnessRecord :=
  match r.witnesses id with
  | some w => w
  | none => ⟨id, DefaultTrust, 0, 0, ⟨0, 0, 0⟩⟩

/-- witness.Registry.RecordCorrect: trust increases by RecoveryRate, clamped
to MaxTrust. -/
def Registry.RecordCorrect (r : Registry) (id : NodeID) : Registry :=
  let w := r.getOrCreate id
  let t := w.Trust + RecoveryRate
  let t2 := if MaxTrust < t then MaxTrust else t
  ⟨fun j => if j = id then
      some { w with CorrectReports := w.CorrectReports + 1, Trust := t2 }
    else r.witnesses j⟩

/-- witness.Registry.RecordWrong: trust decreases by DecayRate, clamped to
MinTrust. -/
def Registry.RecordWrong (r : Registry) (id : NodeID) : Registry :=
  let w := r.getOrCreate id
  let t := w.Trust - DecayRate
  let t2 := if t < MinTrust then MinTrust else t
  ⟨fun j => if j = id then
      some { w with WrongReports := w.WrongReports + 1, Trust := t2 }
    else r.witnesses j⟩

/-- witness.WitnessReport: a belief report from a single witness. -/
structure WitnessReport where
  Witness : NodeID
  Target : NodeID
  Belief : Belief
  Trust : ℚ
deriving DecidableEq

/-! ## witness package: aggregator (witness/aggregator.go)

The aggregator is the one component whose arithmetic passes through
math.Sqrt (in calculateDisagreement), so its pipeline is modelled over the
reals from that point on; the trust-weighted averages and the correlation
score are still exact rationals. -/

/-- The total trust weight accumulated by the loop of Aggregator.Aggregate. -/
def Aggregator.totalTrust (reg : Registry) (reports : List WitnessReport) : ℚ :=
  (reports.map (fun r => reg.GetTrust r.Witness)).sum

/-- Trust-weighted average alive mass (aliveSum / totalWeight). -/
def Aggregator.avgAlive (reg : Registry) (reports : List WitnessReport) : ℚ :=
  (reports.map (fun r => r.Belief.alive * reg.GetTrust r.Witness)).sum /
    Aggregator.totalTrust reg reports

/-- Trust-weighted average dead mass (deadSum / totalWeight). -/
def Aggregator.avgDead (reg : Registry) (reports : List WitnessReport) : ℚ :=
  (reports.map (fun r => r.Belief.dead * reg.GetTrust r.Witness)).sum /
    Aggregator.totalTrust reg reports

/-- Trust-weighted average unknown mass (unknownSum / totalWeight). -/
def Aggregator.avgUnknown (reg : Registry) (reports : List WitnessReport) : ℚ :=
  (reports.map (fun r => r.Belief.unknown * reg.GetTrust r.Witness)).sum /
    Aggregator.totalTrust reg reports

/-- The variance accumulated inside Aggregator.calculateDisagreement, before
math.Sqrt is applied. -/
def Aggregator.disagreementVariance (reports : List WitnessReport) (avgAlive avgDead : ℚ) : ℚ :=
  (reports.map (fun r =>
    (r.Belief.alive - avgAlive) ^ 2 + (r.Belief.dead - avgDead) ^ 2)).sum / reports.length

/-- witness.Aggregator.calculateDisagreement: sqrt of the per-report variance,
clamped to [0,1]; 0 for fewer than 2 reports. -/
noncomputable def Aggregator.calculateDisagreement
    (reports : List WitnessReport) (avgAlive avgDead : ℚ) : ℝ :=
  if reports.length < 2 then 0
  else min (Real.sqrt ((Aggregator.disagreementVariance reports avgAlive avgDead : ℚ) : ℝ)) 1

/-- witness.Aggregator.detectCorrelation: 1 − min(2·meanAbsDiffFromFirst, 1),
where the mean is over the differences of each later report from the first. -/
def Aggregator.detectCorrelation (reports : List WitnessReport) : ℚ :=
  if reports.length < 2 then 0
  else
    match reports with
    | [] => 0
    | first :: rest =>
      let totalDiff : ℚ := (rest.map (fun r =>
        |first.Belief.alive - r.Belief.alive| + |first.Belief.dead - r.Belief.dead|)).sum
      let avgDiff := totalDiff / ((reports.length - 1 : Nat) : ℚ)
      1 - min (avgDiff * 2) 1

/-- The real-valued belief produced by the aggregator (the Go code reuses
types.Belief; the sqrt-tainted arithmetic forces reals here). -/
structure BeliefR where
  alive : ℝ
  dead : ℝ
  unknown : ℝ

/-- types.UnknownBelief as used on the aggregator/oracle side. -/
def UnknownBeliefR : BeliefR := ⟨0, 0, 1⟩

/-- types.NewConfidence on the aggregator/oracle side (range checks; NaN
cannot arise in the exact model). -/
noncomputable def NewConfidenceR (value : ℝ) : Option ℝ :=
  if value < 0 then none
  else if 1 < value then none
  else some value

/-- types.NewBelief on the aggregator/oracle side. -/
noncomputable def NewBeliefR (alive dead unknown : ℝ) : Option BeliefR :=
  if ((BeliefSumEpsilon : ℚ) : ℝ) < |alive + dead + unknown - 1| then none
  else
    match NewConfidenceR alive, NewConfidenceR dead, NewConfidenceR unknown with
    | some a, some d, some u => some ⟨a, d, u⟩
    | _, _, _ => none

/-- Coercion of a stored (rational-valued) belief into the real-valued
aggregator pipeline. -/
def Belief.toR (b : Belief) : BeliefR := ⟨(b.alive : ℝ), (b.dead : ℝ), (b.unknown : ℝ)⟩

/-- types.Belief.Dominant applied to a real-valued belief (same Go function,
on the oracle side of the pipeline). -/
noncomputable def BeliefR.Dominant (b : BeliefR) : BeliefState :=
  if b.dead + ((DominantMargin : ℚ) : ℝ) < b.alive ∧
      b.unknown + ((DominantMargin : ℚ) : ℝ) < b.alive then
    .StateAlive
  else if b.alive + ((DominantMargin : ℚ) : ℝ) < b.dead ∧
      b.unknown + ((DominantMargin : ℚ) : ℝ) < b.dead then
    .StateDead
  else
    .StateUnknown

/-- witness.AggregateResult. -/
structure AggregateResult where
  Belief : BeliefR
  Disagreement : ℝ
  WitnessCount : Nat
  Reports : List WitnessReport

/-- witness.Aggregator.Aggregate: trust-weighted averaging, then correlation
penalty (P11), disagreement widening (P10), unknown floor, and validated
belief construction with UnknownBelief fallback. -/
noncomputable def Aggregator.Aggregate (reg : Registry) (reports : List WitnessReport) :
    AggregateResult :=
  match reports with
  | [] => ⟨UnknownBeliefR, 0, 0, []⟩
  | [r] => ⟨r.Belief.toR, 0, 1, [r]⟩
  | _ :: _ :: _ =>
    let totalWeight := Aggregator.totalTrust reg reports
    if totalWeight < 0.001 then ⟨UnknownBeliefR, 0, reports.length, reports⟩
    else
      let aA := Aggregator.avgAlive reg reports
      let aD := Aggregator.avgDead reg reports
      let aU := Aggregator.avgUnknown reg reports
      let disagreement := Aggregator.calculateDisagreement reports aA aD
      let correlation := Aggregator.detectCorrelation reports
      let p : ℚ × ℚ × ℚ :=
        if 0.9 < correlation then (aA * 0.7, aD * 0.7, 1 - aA * 0.7 - aD * 0.7)
        else (aA, aD, aU)
      let w : ℝ × ℝ × ℝ :=
        if 0.3 < disagreement then
          ((p.1 : ℝ) * (1 - disagreement * 0.5), (p.2.1 : ℝ) * (1 - disagreement * 0.5),
            1 - (p.1 : ℝ) * (1 - disagreement * 0.5) - (p.2.1 : ℝ) * (1 - disagreement * 0.5))
        else ((p.1 : ℝ), (p.2.1 : ℝ), (p.2.2 : ℝ))
      let f : ℝ × ℝ × ℝ :=
        if w.2.2 < 0.05 then
          (w.1 - (0.05 - (1 - w.1 - w.2.1)) / 2, w.2.1 - (0.05 - (1 - w.1 - w.2.1)) / 2, 0.05)
        else w
      match NewBeliefR f.1 f.2.1 f.2.2 with
      | some b => ⟨b, disagreement, reports.length, reports⟩
      | none => ⟨UnknownBeliefR, disagreement, reports.length, reports⟩

/-! ## partition package: detector (partition/detector.go) -/

/-- partition.PartitionState. -/
inductive PartitionState where
  | NoPartition
  | SuspectedPartition
  | ConfirmedPartition
deriving DecidableEq

/-- partition.WitnessGroup. -/
structure WitnessGroup where
  Witnesses : List NodeID
  Beliefs : NodeID → Option Belief

/-- partition.SplitReality. -/
structure SplitReality where
  Groups : List WitnessGroup
  Disagreement : ℚ
  Ambiguous : List NodeID

/-- partition.Detector. The Go struct also caches the latest classification
and split for introspection; no verified claim reads that cache, so only the
threshold configuration is modelled. -/
structure Detector where
  disagreementThreshold : ℚ

/-- partition.NewDetector. -/
def NewDetector : Detector := ⟨0.4⟩

/-- The loop of Analyze that fills the alive-side and dead-side witness
groups (each group's belief map records the last matching report). -/
def Detector.buildGroups (reports : List WitnessReport) (target : NodeID) :
    WitnessGroup × WitnessGroup :=
  reports.foldl
    (fun acc r =>
      if r.Belief.Dominant = .StateAlive then
        (⟨acc.1.Witnesses ++ [r.Witness],
          fun j => if j = target then some r.Belief else acc.1.Beliefs j⟩, acc.2)
      else if r.Belief.Dominant = .StateDead then
        (acc.1, ⟨acc.2.Witnesses ++ [r.Witness],
          fun j => if j = target then some r.Belief else acc.2.Beliefs j⟩)
      else acc)
    (⟨[], fun _ => none⟩, ⟨[], fun _ => none⟩)

/-- partition.Detector.Analyze: classify a report set as NoPartition,
SuspectedPartition, or ConfirmedPartition (with a SplitReality). The Go
method also stores the classification on the detector; the returned values
are modelled. -/
def Detector.Analyze (d : Detector) (reports : List WitnessReport) (target : NodeID) :
    PartitionState × Option SplitReality :=
  if reports.length < 2 then (.NoPartition, none)
  else
    let aliveVotes := (reports.filter (fun r => r.Belief.Dominant = .StateAlive)).length
    let deadVotes := (reports.filter (fun r => r.Belief.Dominant = .StateDead)).length
    let unknownVotes := (reports.filter (fun r => r.Belief.Dominant = .StateUnknown)).length
    let total := reports.length
    if 0 < aliveVotes ∧ 0 < deadVotes then
      let disagreement : ℚ := ((min aliveVotes deadVotes : Nat) : ℚ) / (total : ℚ)
      if d.disagreementThreshold < disagreement then
        let grps := Detector.buildGroups reports target
        (.ConfirmedPartition, some ⟨[grps.1, grps.2], disagreement, [target]⟩)
      else (.SuspectedPartition, none)
    else if (0.5 : ℚ) < (unknownVotes : ℚ) / (total : ℚ) then (.SuspectedPartition, none)
    else (.NoPartition, none)

/-! ## finality package: engine (finality/engine.go) -/

/-- finality error kinds (ErrAlreadyDead, ErrInsufficientEvidence,
ErrSilenceOnly, ErrResurrection). -/
inductive FinalityError where
  | AlreadyDead
  | InsufficientEvidence
  | SilenceOnly
  | Resurrection
deriving DecidableEq

/-- finality.MinDeadConfidence. -/
def MinDeadConfidence : ℚ := 0.85

/-- finality.MinWitnesses. -/
def MinWitnesses : Nat := 3

/-- finality.MaxDisagreement. -/
def MaxDisagreement : ℚ := 0.2

/-- finality.DeathRecord. -/
structure DeathRecord where
  NodeID : Styx.NodeID
  FinalBelief : Belief
  Witnesses : List Styx.NodeID
  Reason : String
deriving DecidableEq

/-- finality.Engine: the terminal dead map (plus the registry reference the
Go struct carries, which the engine logic never reads). -/
structure Engine where
  dead : NodeID → Option DeathRecord
  registry : Registry

/-- finality.NewEngine. -/
def NewEngine (registry : Registry) : Engine := ⟨fun _ => none, registry⟩

/-- finality.Engine.IsDead. -/
def Engine.IsDead (e : Engine) (id : NodeID) : Bool :=
  (e.dead id).isSome

/-- finality.calculateDisagreement: population variance of the reports' dead
masses; 0 for fewer than 2 reports. -/
def Finality.calculateDisagreement (reports : List WitnessReport) : ℚ :=
  if reports.length < 2 then 0
  else
    let avgDead := (reports.map (fun r => r.Belief.dead)).sum / (reports.length : ℚ)
    (reports.map (fun r => (r.Belief.dead - avgDead) ^ 2)).sum / (reports.length : ℚ)

/-- finality.Engine.DeclareDeath: checks AlreadyDead, MinDeadConfidence,
MinWitnesses, hasNonTimeoutEvidence and MaxDisagreement in order; on success
inserts an immutable DeathRecord. Returns the updated engine and the error
(none on success). -/
def Engine.DeclareDeath (e : Engine) (nodeID : NodeID) (aggregatedBelief : Belief)
    (witnessReports : List WitnessReport) (hasNonTimeoutEvidence : Bool) :
    Engine × Option FinalityError :=
  if (e.dead nodeID).isSome then (e, some .AlreadyDead)
  else if aggregatedBelief.dead < MinDeadConfidence then (e, some .InsufficientEvidence)
  else if witnessReports.length < MinWitnesses then (e, some .InsufficientEvidence)
  else if !hasNonTimeoutEvidence then (e, some .SilenceOnly)
  else if MaxDisagreement < Finality.calculateDisagreement witnessReports then
    (e, some .InsufficientEvidence)
  else
    ({ dead := fun j => if j = nodeID then
          some ⟨nodeID, aggregatedBelief, witnessReports.map (fun r => r.Witness),
            "overwhelming evidence from multiple witnesses"⟩
        else e.dead j,
       registry := e.registry }, none)

/-- finality.Engine.AttemptResurrection: always fails for a dead node; the
engine state is read-only here. -/
def Engine.AttemptResurrection (e : Engine) (id : NodeID) : Option FinalityError :=
  if (e.dead id).isSome then some .Resurrection else none

/-- The public operations of the finality engine, used to state that no
operation removes or overwrites a dead-map entry. -/
inductive EngineOp where
  | declareDeath (nodeID : NodeID) (belief : Belief)
      (reports : List WitnessReport) (hasNonTimeoutEvidence : Bool)
  | isDead (nodeID : NodeID)
  | getDeathRecord (nodeID : NodeID)
  | attemptResurrection (nodeID : NodeID)
  | allDead

/-- State transition of one engine operation (only DeclareDeath writes). -/
def Engine.applyOp (e : Engine) : EngineOp → Engine
  | .declareDeath nodeID belief reports flag => (e.DeclareDeath nodeID belief reports flag).1
  | .isDead _ => e
  | .getDeathRecord _ => e
  | .attemptResurrection _ => e
  | .allDead => e

/-- State after a sequence of engine operations. -/
def Engine.applyOps (e : Engine) (ops : List EngineOp) : Engine :=
  ops.foldl Engine.applyOp e

/-! ## oracle package: facade (part_003) -/

/-- oracle.RequiredConfidence. -/
structure RequiredConfidence where
  MinAlive : ℚ
  MinDead : ℚ
  MaxUnknown : ℚ

/-- oracle.DefaultRequirement. -/
def DefaultRequirement : RequiredConfidence := ⟨0, 0, 1⟩

/-- oracle.StrictRequirement. -/
def StrictRequirement : RequiredConfidence := ⟨0.7, 0.7, 0.3⟩

/-- oracle.QueryResult. -/
structure QueryResult where
  Target : NodeID
  Belief : BeliefR
  Refused : Bool
  RefusalReason : String
  Dead : Bool
  WitnessCount : Nat
  Disagreement : ℝ
  PartitionState : PartitionState
  Evidence : List String

/-- oracle.Oracle: registry, finality engine, partition detector and the
per-target report lists (the aggregator holds no state beyond the registry). -/
structure Oracle where
  selfID : NodeID
  registry : Registry
  finality : Engine
  partition : Detector
  reports : NodeID → List WitnessReport

/-- oracle.New. -/
def Oracle.New (selfID : NodeID) : Oracle :=
  let reg := NewRegistry
  ⟨selfID, reg, NewEngine reg, NewDetector, fun _ => []⟩

/-- oracle.Oracle.ReceiveReport: registers the witness and appends the report
to the target's list (Trust is the zero value of the Go struct literal). -/
def Oracle.ReceiveReport (o : Oracle) (witnessID target : NodeID) (belief : Belief) : Oracle :=
  let reg := o.registry.Register witnessID
  let report : WitnessReport := ⟨witnessID, target, belief, 0⟩
  { o with
    registry := reg,
    reports := fun j => if j = target then o.reports j ++ [report] else o.reports j }

/-- oracle.Oracle.QueryWithRequirement: finality short-circuit, empty-report
unknown, partition refusal, aggregation, then the confidence and uncertainty
requirement checks. -/
noncomputable def Oracle.QueryWithRequirement (o : Oracle) (target : NodeID)
    (req : RequiredConfidence) : QueryResult :=
  if o.finality.IsDead target then
    ⟨target, ⟨0, 1, 0⟩, false, "", true, 0, 0, .NoPartition, ["finality: node declared dead"]⟩
  else
    let reports := o.reports target
    if reports.isEmpty then
      ⟨target, UnknownBeliefR, false, "", false, 0, 0, .NoPartition,
        ["no witness reports available"]⟩
    else
      let pa := o.partition.Analyze reports target
      if pa.1 = .ConfirmedPartition then
        ⟨target, UnknownBeliefR, true, "network partition detected - witnesses disagree", false,
          reports.length, (match pa.2 with | some split => ((split.Disagreement : ℚ) : ℝ) | none => 0),
          pa.1, ["partition: witnesses split into groups"]⟩
      else
        let aggResult := Aggregator.Aggregate o.registry reports
        if 0 < aggResult.Belief.alive ∧ aggResult.Belief.alive < (req.MinAlive : ℝ) ∧
            0 < aggResult.Belief.dead ∧ aggResult.Belief.dead < (req.MinDead : ℝ) then
          ⟨target, aggResult.Belief, true, "insufficient confidence to meet requirements", false,
            reports.length, aggResult.Disagreement, pa.1, ["confidence below threshold"]⟩
        else if (req.MaxUnknown : ℝ) < aggResult.Belief.unknown then
          ⟨target, aggResult.Belief, true, "uncertainty too high", false,
            reports.length, aggResult.Disagreement, pa.1, ["unknown exceeds threshold"]⟩
        else
          ⟨target, aggResult.Belief, false, "", false, reports.length, aggResult.Disagreement,
            pa.1, ["aggregated " ++ Nat.repr reports.length ++ " witness reports"] ++
              (if (0.1 : ℝ) < aggResult.Disagreement then ["some witness disagreement detected"]
               else [])⟩

/-- oracle.Oracle.Query: QueryWithRequirement at the default requirement. -/
noncomputable def Oracle.Query (o : Oracle) (target : NodeID) : QueryResult :=
  o.QueryWithRequirement target DefaultRequirement

/-! ## Operation sequences over the witness registry (for the trust invariant) -/

/-- The trust-affecting operations of witness.Registry. -/
inductive RegistryOp where
  | register (id : NodeID)
  | recordCorrect (id : NodeID)
  | recordWrong (id : NodeID)

/-- State transition of one registry operation. -/
def Registry.applyOp (r : Registry) : RegistryOp → Registry
  | .register id => r.Register id
  | .recordCorrect id => r.RecordCorrect id
  | .recordWrong id => r.RecordWrong id

/-- State after a sequence of registry operations. -/
def Registry.applyOps (r : Registry) (ops : List RegistryOp) : Registry :=
  ops.foldl Registry.applyOp r

/-! ## Concrete instances used as counterexamples and witnesses -/

/-- A timeout evidence record of weight 1 at timestamp 0 (decay inputs are
what matter for the decay claims). -/
def c4Evidence : Evidence :=
  ⟨.KindTimeout, 0, 1, ⟨1, 0⟩, ⟨2, 0⟩, emptyDetails⟩

/-- An evidence set holding only Timeout and SchedulingJitter records, one of
which carries an adversarial negative weight. -/
def c6Set : EvidenceSet :=
  ⟨[⟨.KindTimeout, 0, 19, ⟨1, 0⟩, ⟨2, 0⟩, emptyDetails⟩,
    ⟨.KindSchedulingJitter, 0, -1, ⟨1, 0⟩, ⟨2, 0⟩, emptyDetails⟩], 100⟩

/-- An evidence set with a single direct response (a simple non-empty set). -/
def c5Set : EvidenceSet :=
  NewEvidenceSet.Add (NewDirectResponse 1 50 ⟨1, 0⟩ ⟨2, 0⟩)

/-- Three concordant high-dead witness reports about node 99. -/
def c1Reports : List WitnessReport :=
  [⟨⟨1, 0⟩, ⟨99, 0⟩, ⟨0.05, 0.9, 0.05⟩, 0⟩,
   ⟨⟨2, 0⟩, ⟨99, 0⟩, ⟨0.05, 0.9, 0.05⟩, 0⟩,
   ⟨⟨3, 0⟩, ⟨99, 0⟩, ⟨0.05, 0.9, 0.05⟩, 0⟩]

/-- A high-dead aggregated belief meeting MinDeadConfidence. -/
def c1Belief : Belief := ⟨0.05, 0.9, 0.05⟩

/-- Four witness reports split two against two about node 99. -/
def c7Reports : List WitnessReport :=
  [⟨⟨1, 0⟩, ⟨99, 0⟩, ⟨0.9, 0.05, 0.05⟩, 0⟩,
   ⟨⟨2, 0⟩, ⟨99, 0⟩, ⟨0.85, 0.1, 0.05⟩, 0⟩,
   ⟨⟨3, 0⟩, ⟨99, 0⟩, ⟨0.05, 0.9, 0.05⟩, 0⟩,
   ⟨⟨4, 0⟩, ⟨99, 0⟩, ⟨0.1, 0.85, 0.05⟩, 0⟩]

/-- An oracle that received two alive-leaning reports about node 99 whose
aggregate lands strictly between 0 and the strict MinAlive threshold. -/
def c3Oracle : Oracle :=
  ((Oracle.New ⟨0, 0⟩).ReceiveReport ⟨10, 0⟩ ⟨99, 0⟩ ⟨0.7, 0, 0.3⟩).ReceiveReport
    ⟨11, 0⟩ ⟨99, 0⟩ ⟨0.6, 0, 0.4⟩

/-- A requirement demanding at least 0.7 on either side, with no unknown cap. -/
def c3Req : RequiredConfidence := ⟨0.7, 0.7, 1⟩

/-- The identically repeated report of the correlation-penalty scenario. -/
def c8Belief : Belief := ⟨0.95, 0.03, 0.02⟩

/-- An oracle that received the identical belief (0.95, 0.03, 0.02) about
node 99 from ten distinct witnesses. -/
def c8Oracle : Oracle :=
  (((((((((((Oracle.New ⟨0, 0⟩).ReceiveReport ⟨1, 0⟩ ⟨99, 0⟩ c8Belief).ReceiveReport
    ⟨2, 0⟩ ⟨99, 0⟩ c8Belief).ReceiveReport ⟨3, 0⟩ ⟨99, 0⟩ c8Belief).ReceiveReport
    ⟨4, 0⟩ ⟨99, 0⟩ c8Belief).ReceiveReport ⟨5, 0⟩ ⟨99, 0⟩ c8Belief).ReceiveReport
    ⟨6, 0⟩ ⟨99, 0⟩ c8Belief).ReceiveReport ⟨7, 0⟩ ⟨99, 0⟩ c8Belief).ReceiveReport
    ⟨8, 0⟩ ⟨99, 0⟩ c8Belief).ReceiveReport ⟨9, 0⟩ ⟨99, 0⟩ c8Belief).ReceiveReport
    ⟨10, 0⟩ ⟨99, 0⟩ c8Belief)

/-! ## Helper lemmas -/

theorem NewConfidence_eq_some {v c : ℚ} (h : NewConfidence v = some c) :
    c = v ∧ 0 ≤ v ∧ v ≤ 1 := by
  unfold NewConfidence at h
  by_cases h1 : v < 0
  · rw [if_pos h1] at h; exact Option.noConfusion h
  · rw [if_neg h1] at h
    by_cases h2 : 1 < v
    · rw [if_pos h2] at h; exact Option.noConfusion h
    · rw [if_neg h2] at h
      exact ⟨(Option.some.inj h).symm, le_of_not_lt h1, le_of_not_lt h2⟩

theorem NewBelief_eq_some {a d u : ℚ} {b : Belief} (h : NewBelief a d u = some b) :
    b = ⟨a, d, u⟩ := by
  unfold NewBelief at h
  by_cases hs : BeliefSumEpsilon < |a + d + u - 1|
  · rw [if_pos hs] at h; exact Option.noConfusion h
  · rw [if_neg hs] at h
    cases hca : NewConfidence a with
    | none => rw [hca] at h; exact Option.noConfusion h
    | some ca =>
      cases hcd : NewConfidence d with
      | none => rw [hca, hcd] at h; exact Option.noConfusion h
      | some cd =>
        cases hcu : NewConfidence u with
        | none => rw [hca, hcd, hcu] at h; exact Option.noConfusion h
        | some cu =>
          rw [hca, hcd, hcu] at h
          obtain ⟨ea, -⟩ := NewConfidence_eq_some hca
          obtain ⟨ed, -⟩ := NewConfidence_eq_some hcd
          obtain ⟨eu, -⟩ := NewConfidence_eq_some hcu
          rw [← Option.some.inj h, ea, ed, eu]

theorem NewBelief_of_neg_alive {a d u : ℚ} (h : a < 0) : NewBelief a d u = none := by
  unfold NewBelief
  by_cases hs : BeliefSumEpsilon < |a + d + u - 1|
  · rw [if_pos hs]
  · rw [if_neg hs]
    have hna : NewConfidence a = none := by
      unfold NewConfidence
      rw [if_pos h]
    rw [hna]

/-! ## C10: NewTimeout is total and its weight is always 0.1, 0.2 or 0.3 -/

/-- C10: NewTimeout is total over all inputs at the public interface: for
every call, including expectedMS = 0 (where the Go float ratio is +Inf or
NaN), it returns a Timeout evidence record whose weight is exactly one of
0.1, 0.2 or 0.3 — never NaN and never above the 0.3 ceiling. (Totality is
inherent in the Lean embedding being a total function faithful to the IEEE
comparison outcomes of the source.) -/
theorem newTimeout_total_weight_bounded (ts expectedMS waitedMS : Nat)
    (source target : NodeID) :
    ((NewTimeout ts expectedMS waitedMS source target).Weight = 0.1 ∨
      (NewTimeout ts expectedMS waitedMS source target).Weight = 0.2 ∨
      (NewTimeout ts expectedMS waitedMS source target).Weight = 0.3) ∧
    (NewTimeout ts expectedMS waitedMS source target).Kind = .KindTimeout := by
  unfold NewTimeout
  dsimp only
  split_ifs <;> norm_num

/-! ## C9: witness trust stays within [0.1, 1.0] -/

theorem getOrCreate_trust_bounds (r : Registry)
    (h : ∀ id rec, r.witnesses id = some rec → MinTrust ≤ rec.Trust ∧ rec.Trust ≤ MaxTrust)
    (id : NodeID) :
    MinTrust ≤ (r.getOrCreate id).Trust ∧ (r.getOrCreate id).Trust ≤ MaxTrust := by
  unfold Registry.getOrCreate
  cases hw : r.witnesses id with
  | none => norm_num [MinTrust, MaxTrust, DefaultTrust]
  | some w => exact h id w hw

theorem trust_inv_applyOp (r : Registry) (op : RegistryOp)
    (h : ∀ id rec, r.witnesses id = some rec → MinTrust ≤ rec.Trust ∧ rec.Trust ≤ MaxTrust) :
    ∀ id rec, (r.applyOp op).witnesses id = some rec →
      MinTrust ≤ rec.Trust ∧ rec.Trust ≤ MaxTrust := by
  cases op with
  | register id0 =>
    simp only [Registry.applyOp]
    unfold Registry.Register
    cases hw : r.witnesses id0 with
    | some w => exact h
    | none =>
      intro id rec hr
      simp only at hr
      by_cases hid : id = id0
      · rw [if_pos hid] at hr
        cases hr
        norm_num [MinTrust, MaxTrust, DefaultTrust]
      · rw [if_neg hid] at hr
        exact h id rec hr
  | recordCorrect id0 =>
    simp only [Registry.applyOp]
    unfold Registry.RecordCorrect
    intro id rec hr
    simp only at hr
    obtain ⟨hlo, hhi⟩ := getOrCreate_trust_bounds r h id0
    by_cases hid : id = id0
    · rw [if_pos hid] at hr
      cases hr
      simp only [MinTrust, MaxTrust, RecoveryRate] at hlo hhi ⊢
      constructor
      · split_ifs with hc
        · norm_num
        · linarith
      · split_ifs with hc
        · norm_num
        · linarith
    · rw [if_neg hid] at hr
      exact h id rec hr
  | recordWrong id0 =>
    simp only [Registry.applyOp]
    unfold Registry.RecordWrong
    intro id rec hr
    simp only at hr
    obtain ⟨hlo, hhi⟩ := getOrCreate_trust_bounds r h id0
    by_cases hid : id = id0
    · rw [if_pos hid] at hr
      cases hr
      simp only [MinTrust, MaxTrust, DecayRate] at hlo hhi ⊢
      constructor
      · split_ifs with hc
        · norm_num
        · linarith
      · split_ifs with hc
        · norm_num
        · linarith
    · rw [if_neg hid] at hr
      exact h id rec hr

theorem trust_inv_applyOps (ops : List RegistryOp) (r : Registry)
    (h : ∀ id rec, r.witnesses id = some rec → MinTrust ≤ rec.Trust ∧ rec.Trust ≤ MaxTrust) :
    ∀ id rec, (r.applyOps ops).witnesses id = some rec →
      MinTrust ≤ rec.Trust ∧ rec.Trust ≤ MaxTrust := by
  induction ops generalizing r with
  | nil => exact h
  | cons op rest ih =>
    exact ih (r.applyOp op) (trust_inv_applyOp r op h)

/-- C9: for any witness id, after any sequence of Register, RecordCorrect and
RecordWrong operations from a fresh registry, GetTrust stays within
[MinTrust, MaxTrust] = [0.1, 1.0]; registration sets DefaultTrust = 0.8,
RecordCorrect adds RecoveryRate = 0.05 clamped to 1.0, and RecordWrong
subtracts DecayRate = 0.10 clamped to 0.1. -/
theorem trust_bounds_and_dynamics :
    (∀ (ops : List RegistryOp) (id : NodeID),
      MinTrust ≤ (NewRegistry.applyOps ops).GetTrust id ∧
        (NewRegistry.applyOps ops).GetTrust id ≤ MaxTrust) ∧
    (∀ id : NodeID, (NewRegistry.Register id).GetTrust id = DefaultTrust) ∧
    (∀ (r : Registry) (id : NodeID),
      (r.RecordCorrect id).GetTrust id = min (r.GetTrust id + RecoveryRate) MaxTrust) ∧
    (∀ (r : Registry) (id : NodeID),
      (r.RecordWrong id).GetTrust id = max (r.GetTrust id - DecayRate) MinTrust) := by
  refine ⟨?_, ?_, ?_, ?_⟩
  · intro ops id
    have hinv := trust_inv_applyOps ops NewRegistry (by intro id rec h; cases h)
    unfold Registry.GetTrust
    cases hw : (NewRegistry.applyOps ops).witnesses id with
    | none => norm_num [MinTrust, MaxTrust, DefaultTrust]
    | some w => exact hinv id w hw
  · intro id
    unfold Registry.Register NewRegistry Registry.GetTrust
    simp
  · intro r id
    unfold Registry.RecordCorrect Registry.GetTrust Registry.getOrCreate
    cases hw : r.witnesses id with
    | none =>
      simp [hw, min_def]
      split_ifs <;> first | rfl | linarith
    | some w =>
      simp [hw, min_def]
      split_ifs <;> first | rfl | linarith
  · intro r id
    unfold Registry.RecordWrong Registry.GetTrust Registry.getOrCreate
    cases hw : r.witnesses id with
    | none =>
      simp [hw, max_def]
      split_ifs <;> first | rfl | linarith
    | some w =>
      simp [hw, max_def]
      split_ifs <;> first | rfl | linarith

/-! ## C5: the computed belief always keeps unknown mass at least 0.05 -/

theorem eq_none_of_not_isSome {α : Type} {o : Option α} (h : ¬o.isSome = true) : o = none := by
  cases o with
  | none => rfl
  | some v => simp at h

theorem bool_true_false_elim {b : Bool} {C : Prop} (ht : b = true) (hf : b = false) : C := by
  rw [ht] at hf
  exact absurd hf (by simp)

theorem floor_ge (u : ℚ) : 0.05 ≤ if u < 0.05 then (0.05 : ℚ) else u := by
  split_ifs with h
  · exact le_refl _
  · exact le_of_not_lt h

theorem result_unknown_ge (x y z : ℚ) (hz : 0.05 ≤ z) :
    0.05 ≤ (match NewBelief x y z with
      | some b => b
      | none => UnknownBelief).unknown := by
  rcases hb : NewBelief x y z with - | b
  · show (0.05 : ℚ) ≤ UnknownBelief.unknown
    norm_num [UnknownBelief]
  · show (0.05 : ℚ) ≤ b.unknown
    rw [NewBelief_eq_some hb]
    exact hz

/-- C5: for every non-empty EvidenceSet and every logical time, the belief
returned by ComputeBelief has unknown mass at least 0.05. -/
theorem computeBelief_unknown_floor (es : EvidenceSet) (now : Nat)
    (h : es.evidence ≠ []) :
    0.05 ≤ (es.ComputeBelief now).unknown := by
  unfold EvidenceSet.ComputeBelief
  by_cases h1 : es.evidence.isEmpty
  · rw [if_pos h1]
    norm_num [UnknownBelief]
  · rw [if_neg h1]
    by_cases h2 : es.totalWeight now < 1e-10
    · rw [if_pos h2]
      norm_num [UnknownBelief]
    · rw [if_neg h2]
      exact result_unknown_ge _ _ _ (floor_ge _)

/-- Witness for C5 at a concrete one-element evidence set. -/
theorem computeBelief_unknown_floor_witness :
    c5Set.evidence ≠ [] ∧ 0.05 ≤ (c5Set.ComputeBelief 1).unknown :=
  ⟨by simp [c5Set, NewEvidenceSet, EvidenceSet.Add],
   computeBelief_unknown_floor c5Set 1 (by simp [c5Set, NewEvidenceSet, EvidenceSet.Add])⟩

/-! ## C1: death declarations are final and the dead map only grows -/

theorem declareDeath_preserves_entry (e : Engine) (nodeID : NodeID) (b : Belief)
    (reports : List WitnessReport) (flag : Bool) (j : NodeID) (rec : DeathRecord)
    (hj : e.dead j = some rec) :
    (e.DeclareDeath nodeID b reports flag).1.dead j = some rec := by
  unfold Engine.DeclareDeath
  split_ifs with h1 h2 h3 h4 h5 <;> try exact hj
  show (if j = nodeID then _ else e.dead j) = some rec
  by_cases hid : j = nodeID
  · subst hid
    rw [hj] at h1
    simp at h1
  · rw [if_neg hid]
    exact hj

theorem applyOp_preserves_entry (e : Engine) (op : EngineOp) (j : NodeID) (rec : DeathRecord)
    (hj : e.dead j = some rec) : (e.applyOp op).dead j = some rec := by
  cases op with
  | declareDeath nodeID b reports flag =>
    exact declareDeath_preserves_entry e nodeID b reports flag j rec hj
  | isDead _ => exact hj
  | getDeathRecord _ => exact hj
  | attemptResurrection _ => exact hj
  | allDead => exact hj

theorem applyOps_preserves_entry (ops : List EngineOp) (e : Engine) (j : NodeID)
    (rec : DeathRecord) (hj : e.dead j = some rec) :
    (e.applyOps ops).dead j = some rec := by
  induction ops generalizing e with
  | nil => exact hj
  | cons op rest ih => exact ih (e.applyOp op) (applyOp_preserves_entry e op j rec hj)

theorem declareDeath_success_entry (e : Engine) (nodeID : NodeID) (b : Belief)
    (reports : List WitnessReport) (flag : Bool)
    (h : (e.DeclareDeath nodeID b reports flag).2 = none) :
    (e.DeclareDeath nodeID b reports flag).1.dead nodeID =
      some ⟨nodeID, b, reports.map (fun r => r.Witness),
        "overwhelming evidence from multiple witnesses"⟩ := by
  unfold Engine.DeclareDeath at h ⊢
  split_ifs at h ⊢ with h1 h2 h3 h4 h5
  dsimp only
  rw [if_pos rfl]

theorem declareDeath_alreadyDead (e : Engine) (id : NodeID)
    (hdead : (e.dead id).isSome) (b2 : Belief) (r2 : List WitnessReport) (f2 : Bool) :
    e.DeclareDeath id b2 r2 f2 = (e, some .AlreadyDead) := by
  unfold Engine.DeclareDeath
  rw [if_pos hdead]

/-- C1: once a node id has been declared dead by a successful DeclareDeath,
after any further sequence of engine operations IsDead returns true and any
further DeclareDeath for that id returns AlreadyDead leaving the engine
unchanged; moreover no engine operation removes or overwrites any entry of
the dead map. -/
theorem death_is_final (e : Engine) (id : NodeID) (b : Belief)
    (reports : List WitnessReport) (flag : Bool)
    (h : (e.DeclareDeath id b reports flag).2 = none) :
    (∀ ops : List EngineOp,
      (((e.DeclareDeath id b reports flag).1.applyOps ops).IsDead id = true) ∧
      (∀ (b2 : Belief) (r2 : List WitnessReport) (f2 : Bool),
        (((e.DeclareDeath id b reports flag).1.applyOps ops).DeclareDeath id b2 r2 f2) =
          ((e.DeclareDeath id b reports flag).1.applyOps ops, some .AlreadyDead))) ∧
    (∀ (e0 : Engine) (op : EngineOp) (j : NodeID) (rec : DeathRecord),
      e0.dead j = some rec → (e0.applyOp op).dead j = some rec) := by
  have hentry := declareDeath_success_entry e id b reports flag h
  refine ⟨?_, applyOp_preserves_entry⟩
  intro ops
  have hkept := applyOps_preserves_entry ops (e.DeclareDeath id b reports flag).1 id _ hentry
  have hsome : (((e.DeclareDeath id b reports flag).1.applyOps ops).dead id).isSome := by
    rw [hkept]; rfl
  exact ⟨by unfold Engine.IsDead; rw [hkept]; rfl,
    fun b2 r2 f2 => declareDeath_alreadyDead _ id hsome b2 r2 f2⟩

/-- Witness for C1: a fresh engine, one successful declaration for node 99,
then a resurrection attempt and an unrelated declaration. -/
theorem death_is_final_witness :
    ((NewEngine NewRegistry).DeclareDeath ⟨99, 0⟩ c1Belief c1Reports true).2 = none ∧
    ((((NewEngine NewRegistry).DeclareDeath ⟨99, 0⟩ c1Belief c1Reports true).1.applyOps
        [.attemptResurrection ⟨99, 0⟩, .declareDeath ⟨5, 0⟩ c1Belief c1Reports true]).IsDead
      ⟨99, 0⟩ = true) ∧
    ((((NewEngine NewRegistry).DeclareDeath ⟨99, 0⟩ c1Belief c1Reports true).1.applyOps
        [.attemptResurrection ⟨99, 0⟩, .declareDeath ⟨5, 0⟩ c1Belief c1Reports true]).DeclareDeath
      ⟨99, 0⟩ UnknownBelief [] false =
      (((NewEngine NewRegistry).DeclareDeath ⟨99, 0⟩ c1Belief c1Reports true).1.applyOps
        [.attemptResurrection ⟨99, 0⟩, .declareDeath ⟨5, 0⟩ c1Belief c1Reports true],
        some .AlreadyDead)) := by
  have h : ((NewEngine NewRegistry).DeclareDeath ⟨99, 0⟩ c1Belief c1Reports true).2 = none := by
    norm_num [Engine.DeclareDeath, NewEngine, NewRegistry, c1Belief, c1Reports,
      Finality.calculateDisagreement, MinDeadConfidence, MinWitnesses, MaxDisagreement]
  have hmain := death_is_final (NewEngine NewRegistry) ⟨99, 0⟩ c1Belief c1Reports true h
  exact ⟨h, (hmain.1 _).1, (hmain.1 _).2 UnknownBelief [] false⟩

/-! ## C2: DeclareDeath precondition characterisation and atomicity -/

/-- C2: DeclareDeath creates a DeathRecord exactly when no record exists, the
belief's dead mass is at least MinDeadConfidence (0.85), at least
MinWitnesses (3) reports are given, hasNonTimeoutEvidence holds and the
variance of the reports' dead masses is at most MaxDisagreement (0.2); each
failing precondition yields its specific error kind (AlreadyDead checked
first, then InsufficientEvidence for confidence, witness count and
disagreement, SilenceOnly for the flag) and leaves the engine unchanged. -/
theorem declareDeath_preconditions (e : Engine) (id : NodeID) (b : Belief)
    (reports : List WitnessReport) (flag : Bool) :
    ((e.DeclareDeath id b reports flag).2 = none ↔
      (e.dead id = none ∧ MinDeadConfidence ≤ b.dead ∧ MinWitnesses ≤ reports.length ∧
        flag = true ∧ Finality.calculateDisagreement reports ≤ MaxDisagreement)) ∧
    ((e.DeclareDeath id b reports flag).2 = none →
      (e.DeclareDeath id b reports flag).1.dead id =
        some ⟨id, b, reports.map (fun r => r.Witness),
          "overwhelming evidence from multiple witnesses"⟩) ∧
    ((e.DeclareDeath id b reports flag).2 ≠ none →
      (e.DeclareDeath id b reports flag).1 = e) ∧
    (e.dead id ≠ none → (e.DeclareDeath id b reports flag).2 = some .AlreadyDead) ∧
    (e.dead id = none → b.dead < MinDeadConfidence →
      (e.DeclareDeath id b reports flag).2 = some .InsufficientEvidence) ∧
    (e.dead id = none → MinDeadConfidence ≤ b.dead → reports.length < MinWitnesses →
      (e.DeclareDeath id b reports flag).2 = some .InsufficientEvidence) ∧
    (e.dead id = none → MinDeadConfidence ≤ b.dead → MinWitnesses ≤ reports.length →
      flag = false → (e.DeclareDeath id b reports flag).2 = some .SilenceOnly) ∧
    (e.dead id = none → MinDeadConfidence ≤ b.dead → MinWitnesses ≤ reports.length →
      flag = true → MaxDisagreement < Finality.calculateDisagreement reports →
      (e.DeclareDeath id b reports flag).2 = some .InsufficientEvidence) := by
  unfold Engine.DeclareDeath
  split_ifs with h1 h2 h3 h4 h5
  · -- already dead: AlreadyDead
    have hne : e.dead id ≠ none := by
      intro hx
      rw [hx] at h1
      simp at h1
    exact ⟨⟨fun hx => absurd hx (by simp), fun ⟨hn, _⟩ => absurd hn hne⟩,
      fun hx => absurd hx (by simp), fun _ => rfl, fun _ => rfl,
      fun hn _ => absurd hn hne, fun hn _ _ => absurd hn hne,
      fun hn _ _ _ => absurd hn hne, fun hn _ _ _ _ => absurd hn hne⟩
  all_goals have hnone : e.dead id = none := eq_none_of_not_isSome h1
  · -- low dead confidence: InsufficientEvidence
    exact ⟨⟨fun hx => absurd hx (by simp), fun ⟨_, hd, _⟩ => absurd h2 (not_lt.mpr hd)⟩,
      fun hx => absurd hx (by simp), fun _ => rfl, fun hne => absurd hnone hne,
      fun _ _ => rfl, fun _ hd _ => absurd h2 (not_lt.mpr hd),
      fun _ hd _ _ => absurd h2 (not_lt.mpr hd), fun _ hd _ _ _ => absurd h2 (not_lt.mpr hd)⟩
  · -- too few witnesses: InsufficientEvidence
    exact ⟨⟨fun hx => absurd hx (by simp), fun ⟨_, _, hlen, _⟩ => absurd h3 (not_lt.mpr hlen)⟩,
      fun hx => absurd hx (by simp), fun _ => rfl, fun hne => absurd hnone hne,
      fun _ hd => absurd hd h2, fun _ _ _ => rfl,
      fun _ _ hlen _ => absurd h3 (not_lt.mpr hlen),
      fun _ _ hlen _ _ => absurd h3 (not_lt.mpr hlen)⟩
  · -- silence only
    have hflag : flag = false := by simpa using h4
    exact ⟨⟨fun hx => absurd hx (by simp),
        fun ⟨_, _, _, hf, _⟩ => bool_true_false_elim hf hflag⟩,
      fun hx => absurd hx (by simp), fun _ => rfl, fun hne => absurd hnone hne,
      fun _ hd => absurd hd h2, fun _ _ hlen => absurd hlen h3,
      fun _ _ _ _ => rfl, fun _ _ _ hf _ => bool_true_false_elim hf hflag⟩
  · -- witnesses disagree: InsufficientEvidence
    have hflag : flag = true := by simpa using h4
    exact ⟨⟨fun hx => absurd hx (by simp), fun ⟨_, _, _, _, hdis⟩ => absurd h5 (not_lt.mpr hdis)⟩,
      fun hx => absurd hx (by simp), fun _ => rfl, fun hne => absurd hnone hne,
      fun _ hd => absurd hd h2, fun _ _ hlen => absurd hlen h3,
      fun _ _ _ hf => bool_true_false_elim hflag hf,
      fun _ _ _ _ _ => rfl⟩
  · -- success: record created
    have hflag : flag = true := by simpa using h4
    refine ⟨⟨fun _ => ⟨hnone, not_lt.mp h2, not_lt.mp h3, hflag, not_lt.mp h5⟩, fun _ => rfl⟩,
      fun _ => ?_, fun hx => absurd rfl hx, fun hne => absurd hnone hne,
      fun _ hd => absurd hd h2, fun _ _ hlen => absurd hlen h3,
      fun _ _ _ hf => bool_true_false_elim hflag hf,
      fun _ _ _ _ hdis => absurd hdis h5⟩
    exact if_pos rfl

/-- Witness for C2: successful declaration at the concrete instance (record
created), plus the unchanged-engine guarantee at a failing instance. -/
theorem declareDeath_preconditions_witness :
    ((NewEngine NewRegistry).DeclareDeath ⟨99, 0⟩ c1Belief c1Reports true).2 = none ∧
    ((NewEngine NewRegistry).DeclareDeath ⟨99, 0⟩ c1Belief c1Reports true).1.dead ⟨99, 0⟩ =
      some ⟨⟨99, 0⟩, c1Belief, c1Reports.map (fun r => r.Witness),
        "overwhelming evidence from multiple witnesses"⟩ ∧
    ((NewEngine NewRegistry).DeclareDeath ⟨99, 0⟩ c1Belief c1Reports false).2 =
      some .SilenceOnly ∧
    ((NewEngine NewRegistry).DeclareDeath ⟨99, 0⟩ c1Belief c1Reports false).1 =
      NewEngine NewRegistry := by
  have hc := declareDeath_preconditions (NewEngine NewRegistry) ⟨99, 0⟩ c1Belief c1Reports true
  have hf := declareDeath_preconditions (NewEngine NewRegistry) ⟨99, 0⟩ c1Belief c1Reports false
  have hsucc : ((NewEngine NewRegistry).DeclareDeath ⟨99, 0⟩ c1Belief c1Reports true).2 = none :=
    hc.1.mpr ⟨rfl, by norm_num [c1Belief, MinDeadConfidence],
      by norm_num [c1Reports, MinWitnesses], rfl,
      by norm_num [c1Reports, Finality.calculateDisagreement, MaxDisagreement]⟩
  have hsil : ((NewEngine NewRegistry).DeclareDeath ⟨99, 0⟩ c1Belief c1Reports false).2 =
      some .SilenceOnly :=
    hf.2.2.2.2.2.2.1 rfl (by norm_num [c1Belief, MinDeadConfidence])
      (by norm_num [c1Reports, MinWitnesses]) rfl
  exact ⟨hsucc, hc.2.1 hsucc, hsil, hf.2.2.1 (by rw [hsil]; simp)⟩

/-! ## C7: partition detector classification -/

/-- C7: Detector.Analyze classifies a report list as the source does: fewer
than 2 reports gives NoPartition; with both alive and dead dominant votes
present, d = min(aliveVotes, deadVotes)/total decides ConfirmedPartition
(d > 0.4, with a two-group SplitReality listing the target as ambiguous)
against SuspectedPartition; otherwise a majority of unknown votes
(> 0.5) gives SuspectedPartition and anything else NoPartition. -/
theorem analyze_classification (reports : List WitnessReport) (target : NodeID) :
    (reports.length < 2 → NewDetector.Analyze reports target = (.NoPartition, none)) ∧
    (2 ≤ reports.length →
      (0 < (reports.filter (fun r => r.Belief.Dominant = .StateAlive)).length →
        0 < (reports.filter (fun r => r.Belief.Dominant = .StateDead)).length →
        ((0.4 < ((min (reports.filter (fun r => r.Belief.Dominant = .StateAlive)).length
              (reports.filter (fun r => r.Belief.Dominant = .StateDead)).length : Nat) : ℚ) /
              (reports.length : ℚ) →
          (NewDetector.Analyze reports target).1 = .ConfirmedPartition ∧
          ∃ split, (NewDetector.Analyze reports target).2 = some split ∧
            split.Groups.length = 2 ∧ split.Ambiguous = [target]) ∧
        (¬(0.4 < ((min (reports.filter (fun r => r.Belief.Dominant = .StateAlive)).length
              (reports.filter (fun r => r.Belief.Dominant = .StateDead)).length : Nat) : ℚ) /
              (reports.length : ℚ)) →
          NewDetector.Analyze reports target = (.SuspectedPartition, none)))) ∧
      (((reports.filter (fun r => r.Belief.Dominant = .StateAlive)).length = 0 ∨
          (reports.filter (fun r => r.Belief.Dominant = .StateDead)).length = 0) →
        ((0.5 < ((reports.filter (fun r => r.Belief.Dominant = .StateUnknown)).length : ℚ) /
              (reports.length : ℚ) →
          NewDetector.Analyze reports target = (.SuspectedPartition, none)) ∧
        (¬(0.5 < ((reports.filter (fun r => r.Belief.Dominant = .StateUnknown)).length : ℚ) /
              (reports.length : ℚ)) →
          NewDetector.Analyze reports target = (.NoPartition, none))))) := by
  unfold Detector.Analyze NewDetector
  by_cases hlen : reports.length < 2
  · rw [if_pos hlen]
    exact ⟨fun _ => rfl, fun h2 => absurd hlen (not_lt.mpr h2)⟩
  · rw [if_neg hlen]
    refine ⟨fun hl => absurd hl hlen, fun _ => ⟨fun ha hd => ?_, fun hz => ?_⟩⟩
    · rw [if_pos ⟨ha, hd⟩]
      constructor
      · intro hgt
        rw [if_pos hgt]
        exact ⟨rfl, _, rfl, rfl, rfl⟩
      · intro hng
        rw [if_neg hng]
    · have hcond : ¬(0 < (reports.filter (fun r => r.Belief.Dominant = .StateAlive)).length ∧
          0 < (reports.filter (fun r => r.Belief.Dominant = .StateDead)).length) := by
        rcases hz with h | h <;> simp [h]
      rw [if_neg hcond]
      exact ⟨fun hu => by rw [if_pos hu], fun hnu => by rw [if_neg hnu]⟩

/-- Witness for C7: four reports split two against two confirm a partition
with two witness groups and the target ambiguous. -/
theorem analyze_classification_witness :
    (NewDetector.Analyze c7Reports ⟨99, 0⟩).1 = .ConfirmedPartition ∧
    ∃ split, (NewDetector.Analyze c7Reports ⟨99, 0⟩).2 = some split ∧
      split.Groups.length = 2 ∧ split.Ambiguous = [⟨99, 0⟩] := by
  have e1 : (⟨(0.9 : ℚ), 0.05, 0.05⟩ : Belief).Dominant = .StateAlive := by
    norm_num [Belief.Dominant, DominantMargin]
  have e2 : (⟨(0.85 : ℚ), 0.1, 0.05⟩ : Belief).Dominant = .StateAlive := by
    norm_num [Belief.Dominant, DominantMargin]
  have e3 : (⟨(0.05 : ℚ), 0.9, 0.05⟩ : Belief).Dominant = .StateDead := by
    norm_num [Belief.Dominant, DominantMargin]
  have e4 : (⟨(0.1 : ℚ), 0.85, 0.05⟩ : Belief).Dominant = .StateDead := by
    norm_num [Belief.Dominant, DominantMargin]
  have ha : 0 < (c7Reports.filter (fun r => r.Belief.Dominant = .StateAlive)).length := by
    simp [c7Reports, e1, e2, e3, e4]
  have hd : 0 < (c7Reports.filter (fun r => r.Belief.Dominant = .StateDead)).length := by
    simp [c7Reports, e1, e2, e3, e4]
  have hq : (0.4 : ℚ) <
      ((min (c7Reports.filter (fun r => r.Belief.Dominant = .StateAlive)).length
          (c7Reports.filter (fun r => r.Belief.Dominant = .StateDead)).length : Nat) : ℚ) /
        (c7Reports.length : ℚ) := by
    simp [c7Reports, e1, e2, e3, e4]
    norm_num
  exact ((analyze_classification c7Reports ⟨99, 0⟩).2
    (by norm_num [c7Reports])).1 ha hd |>.1 hq

/-! ## C4: evidence decay uses the source's approximate power function -/

theorem pow_cast_nat (base : ℚ) (n : Nat) : pow base (n : ℚ) = base ^ n := by
  unfold pow
  by_cases h0 : (n : ℚ) = 0
  · have hn : n = 0 := by exact_mod_cast h0
    rw [if_pos h0, hn]
    norm_num
  · rw [if_neg h0]
    have hn : 1 ≤ n := Nat.one_le_iff_ne_zero.mpr (by exact_mod_cast h0)
    have h1 : (1 : ℚ) ≤ (n : ℚ) := by exact_mod_cast hn
    rw [if_pos h1]
    rw [Int.floor_natCast, Int.toNat_natCast]
    simp

/-- The fractional-exponent behaviour of the source's pow: at exponent 1/2 it
returns 3/4 (linear interpolation), not the square root of the base. -/
theorem pow_half_half : pow 0.5 (1 / 2 : ℚ) = 3 / 4 := by
  unfold pow
  norm_num

/-- C4 counterexample: at age 1 with halfLife 2 (exponent 1/2), the effective
weight of a weight-1 record is 3/4, whereas the claimed formula
weight * 0.5^(age/halfLife) gives 0.5^(1/2) = sqrt(1/2) which is not 3/4;
hence EffectiveWeight does not equal weight times 0.5 raised to the real
power age/halfLife. -/
theorem effectiveWeight_not_exact_pow :
    c4Evidence.EffectiveWeight 1 2 = 3 / 4 ∧
    ((c4Evidence.EffectiveWeight 1 2 : ℚ) : ℝ) ≠
      (c4Evidence.Weight : ℝ) *
        (0.5 : ℝ) ^ (((AgeSince c4Evidence.Timestamp 1 : Nat) : ℝ) / ((2 : Nat) : ℝ)) := by
  have h1 : c4Evidence.EffectiveWeight 1 2 = 3 / 4 := by
    have : ((AgeSince (0 : Nat) 1 : Nat) : ℚ) / ((2 : Nat) : ℚ) = 1 / 2 := by
      norm_num [AgeSince]
    unfold Evidence.EffectiveWeight c4Evidence
    dsimp only
    rw [show ((AgeSince 0 1 : Nat) : ℚ) / ((2 : Nat) : ℚ) = 1 / 2 from this, pow_half_half]
    norm_num
  refine ⟨h1, ?_⟩
  rw [h1]
  have hage : ((AgeSince c4Evidence.Timestamp 1 : Nat) : ℝ) / ((2 : Nat) : ℝ) = 1 / 2 := by
    norm_num [AgeSince, c4Evidence]
  rw [hage]
  have hw : (c4Evidence.Weight : ℝ) = 1 := by norm_num [c4Evidence]
  rw [hw, one_mul]
  intro heq
  have hsq : ((3 / 4 : ℚ) : ℝ) ^ (2 : Nat) = ((0.5 : ℝ) ^ ((1 : ℝ) / 2)) ^ (2 : Nat) := by
    rw [heq]
  rw [← Real.rpow_natCast ((0.5 : ℝ) ^ ((1 : ℝ) / 2)) 2, ← Real.rpow_mul (by norm_num)] at hsq
  norm_num at hsq

/-- C4 amended: EffectiveWeight multiplies the record's weight by the
source's approximate power function. When halfLife divides the age the
claimed formula weight * 0.5^(age/halfLife) is exact; at age = halfLife/2
the decay factor is 3/4 (the linear interpolation of the fractional part),
not 0.5^(1/2). -/
theorem effectiveWeight_decay (e : Evidence) (now halfLife : Nat) (hpos : 0 < halfLife) :
    (halfLife ∣ AgeSince e.Timestamp now →
      ((e.EffectiveWeight now halfLife : ℚ) : ℝ) =
        (e.Weight : ℝ) *
          (0.5 : ℝ) ^ (((AgeSince e.Timestamp now : Nat) : ℝ) / ((halfLife : Nat) : ℝ))) ∧
    (∀ k : Nat, 0 < k → AgeSince e.Timestamp now = k → halfLife = 2 * k →
      e.EffectiveWeight now halfLife = e.Weight * (3 / 4)) := by
  have hne : ((halfLife : Nat) : ℚ) ≠ 0 := by exact_mod_cast hpos.ne'
  constructor
  · rintro ⟨m, hm⟩
    have hexpq : ((AgeSince e.Timestamp now : Nat) : ℚ) / ((halfLife : Nat) : ℚ) = (m : ℚ) := by
      rw [hm]
      push_cast
      field_simp
    have hexpr : ((AgeSince e.Timestamp now : Nat) : ℝ) / ((halfLife : Nat) : ℝ) = (m : ℝ) := by
      rw [hm]
      push_cast
      field_simp
    unfold Evidence.EffectiveWeight
    dsimp only
    rw [hexpq, hexpr, pow_cast_nat]
    rw [Real.rpow_natCast]
    push_cast
    norm_num
  · intro k hk hage hhalf
    have hexpq : ((AgeSince e.Timestamp now : Nat) : ℚ) / ((halfLife : Nat) : ℚ) = 1 / 2 := by
      rw [hage, hhalf]
      have : ((k : Nat) : ℚ) ≠ 0 := by exact_mod_cast hk.ne'
      push_cast
      field_simp
      ring
    unfold Evidence.EffectiveWeight
    dsimp only
    rw [hexpq, pow_half_half]

/-- Witness for C4 amended: weight-1 timeout evidence at timestamp 0 with
halfLife 100 — exact decay 1/4 at age 200, factor 3/4 at age 50. -/
theorem effectiveWeight_decay_witness :
    ((0 : Nat) < 100 ∧ (100 : Nat) ∣ AgeSince c4Evidence.Timestamp 200) ∧
    ((c4Evidence.EffectiveWeight 200 100 : ℚ) : ℝ) =
      (c4Evidence.Weight : ℝ) *
        (0.5 : ℝ) ^ (((AgeSince c4Evidence.Timestamp 200 : Nat) : ℝ) / ((100 : Nat) : ℝ)) ∧
    c4Evidence.EffectiveWeight 50 100 = c4Evidence.Weight * (3 / 4) := by
  have hdvd : (100 : Nat) ∣ AgeSince c4Evidence.Timestamp 200 := by
    norm_num [AgeSince, c4Evidence]
  exact ⟨⟨by norm_num, hdvd⟩,
    (effectiveWeight_decay c4Evidence 200 100 (by norm_num)).1 hdvd,
    (effectiveWeight_decay c4Evidence 50 100 (by norm_num)).2 50 (by norm_num)
      (by norm_num [AgeSince, c4Evidence]) (by norm_num)⟩

/-! ## C6: dead mass from timeout/jitter-only evidence sets -/

theorem pow_half_nonneg (exp : ℚ) : 0 ≤ pow 0.5 exp := by
  unfold pow
  by_cases h0 : exp = 0
  · rw [if_pos h0]
    norm_num
  · rw [if_neg h0]
    by_cases hle : 1 ≤ exp
    · rw [if_pos hle]
      have hfl : ((⌊exp⌋.toNat : Nat) : ℚ) = ((⌊exp⌋ : ℤ) : ℚ) := by
        exact_mod_cast congrArg (fun z : ℤ => (z : ℚ))
          (Int.toNat_of_nonneg (Int.floor_nonneg.mpr (le_trans zero_le_one hle)))
      refine mul_nonneg (pow_nonneg (by norm_num) _) ?_
      split_ifs with hr
      · have hlt1 : exp - ((⌊exp⌋.toNat : Nat) : ℚ) < 1 := by
          rw [hfl]
          have := Int.lt_floor_add_one exp
          push_cast at this ⊢
          linarith
        norm_num
        linarith
      · norm_num
    · rw [if_neg hle]
      refine mul_nonneg (pow_nonneg (by norm_num) _) ?_
      split_ifs with hr
      · push_cast at hr ⊢
        have : exp < 1 := lt_of_not_le hle
        norm_num
        linarith
      · norm_num

theorem effectiveWeight_nonneg (e : Evidence) (now halfLife : Nat) (hw : 0 ≤ e.Weight) :
    0 ≤ e.EffectiveWeight now halfLife :=
  mul_nonneg hw (pow_half_nonneg _)

theorem aliveWeight_eq_zero (es : EvidenceSet) (now : Nat)
    (hkind : ∀ e ∈ es.evidence, e.Kind = .KindTimeout ∨ e.Kind = .KindSchedulingJitter) :
    es.aliveWeight now = 0 := by
  unfold EvidenceSet.aliveWeight
  apply List.sum_eq_zero
  intro x hx
  simp only [List.mem_map] at hx
  obtain ⟨e, he, rfl⟩ := hx
  rcases hkind e he with h | h <;> simp [Evidence.SuggestsAlive, h]

theorem deadWeight_nonneg (es : EvidenceSet) (now : Nat)
    (hw : ∀ e ∈ es.evidence, 0 ≤ e.Weight) :
    0 ≤ es.deadWeight now := by
  unfold EvidenceSet.deadWeight
  apply List.sum_nonneg
  intro x hx
  simp only [List.mem_map] at hx
  obtain ⟨e, he, rfl⟩ := hx
  split_ifs
  · exact le_refl 0
  · exact effectiveWeight_nonneg e now es.halfLife (hw e he)
  · exact le_refl 0

theorem deadWeight_le_totalWeight (es : EvidenceSet) (now : Nat)
    (hw : ∀ e ∈ es.evidence, 0 ≤ e.Weight) :
    es.deadWeight now ≤ es.totalWeight now := by
  unfold EvidenceSet.deadWeight EvidenceSet.totalWeight
  apply List.sum_le_sum
  intro e he
  split_ifs
  · exact effectiveWeight_nonneg e now es.halfLife (hw e he)
  · exact le_refl _
  · exact effectiveWeight_nonneg e now es.halfLife (hw e he)

theorem result_dead_le (x y z : ℚ) (h : x < 0 ∨ y ≤ 0.95) :
    (match NewBelief x y z with
      | some b => b
      | none => UnknownBelief).dead ≤ 0.95 := by
  rcases hb : NewBelief x y z with - | b
  · show UnknownBelief.dead ≤ _
    norm_num [UnknownBelief]
  · show b.dead ≤ _
    rcases h with hx | hy
    · rw [NewBelief_of_neg_alive hx] at hb
      cases hb
    · rw [NewBelief_eq_some hb]
      exact hy

theorem result_dead_lt (x y z : ℚ) (h : x < 0 ∨ y < 0.95) :
    (match NewBelief x y z with
      | some b => b
      | none => UnknownBelief).dead < 0.95 := by
  rcases hb : NewBelief x y z with - | b
  · show UnknownBelief.dead < _
    norm_num [UnknownBelief]
  · show b.dead < _
    rcases h with hx | hy
    · rw [NewBelief_of_neg_alive hx] at hb
      cases hb
    · rw [NewBelief_eq_some hb]
      exact hy

/-- C6 amended: for every EvidenceSet whose records are all Timeout and/or
SchedulingJitter, the computed dead mass is at most 0.95 (equality is only
reachable through records with adversarial negative weights, see the
counterexample); if moreover every record's weight is nonnegative — as all
factory-constructed evidence is — the dead mass stays strictly below 0.95
(indeed at most the 0.90 certainty cap). -/
theorem computeBelief_dead_bounded (es : EvidenceSet) (now : Nat)
    (hkind : ∀ e ∈ es.evidence, e.Kind = .KindTimeout ∨ e.Kind = .KindSchedulingJitter) :
    (es.ComputeBelief now).dead ≤ 0.95 ∧
    ((∀ e ∈ es.evidence, 0 ≤ e.Weight) → (es.ComputeBelief now).dead < 0.95) := by
  have haz := aliveWeight_eq_zero es now hkind
  unfold EvidenceSet.ComputeBelief
  by_cases h1 : es.evidence.isEmpty
  · rw [if_pos h1]
    exact ⟨by norm_num [UnknownBelief], fun _ => by norm_num [UnknownBelief]⟩
  · rw [if_neg h1]
    by_cases h2 : es.totalWeight now < 1e-10
    · rw [if_pos h2]
      exact ⟨by norm_num [UnknownBelief], fun _ => by norm_num [UnknownBelief]⟩
    · rw [if_neg h2]
      rw [haz]
      rw [if_neg (show ¬((0 : ℚ) < 0 ∧ 0 < es.deadWeight now) by simp)]
      simp only [zero_div, zero_mul, mul_one, sub_zero]
      have hT : 0 < es.totalWeight now :=
        lt_of_lt_of_le (by norm_num) (not_lt.mp h2)
      constructor
      · refine result_dead_le _ _ _ ?_
        by_cases hc :
            1 - es.deadWeight now / es.totalWeight now *
              min (es.totalWeight now / (es.totalWeight now + 1)) 0.9 < 0.05
        · left
          rw [if_pos hc]
          linarith
        · right
          rw [if_neg hc]
          linarith [not_lt.mp hc]
      · intro hw
        have hdw0 := deadWeight_nonneg es now hw
        have hdwT := deadWeight_le_totalWeight es now hw
        have hr1 : es.deadWeight now / es.totalWeight now ≤ 1 := (div_le_one hT).mpr hdwT
        have hmc9 : min (es.totalWeight now / (es.totalWeight now + 1)) 0.9 ≤ (0.9 : ℚ) :=
          min_le_right _ _
        have hmc0 : (0 : ℚ) ≤ min (es.totalWeight now / (es.totalWeight now + 1)) 0.9 :=
          le_min (div_nonneg hT.le (by linarith)) (by norm_num)
        have hD9 : es.deadWeight now / es.totalWeight now *
            min (es.totalWeight now / (es.totalWeight now + 1)) 0.9 ≤ (0.9 : ℚ) := by
          calc es.deadWeight now / es.totalWeight now *
              min (es.totalWeight now / (es.totalWeight now + 1)) 0.9
              ≤ 1 * (0.9 : ℚ) := mul_le_mul hr1 hmc9 hmc0 (by norm_num)
            _ = 0.9 := one_mul _
        refine result_dead_lt _ _ _ ?_
        by_cases hc :
            1 - es.deadWeight now / es.totalWeight now *
              min (es.totalWeight now / (es.totalWeight now + 1)) 0.9 < 0.05
        · left
          rw [if_pos hc]
          linarith
        · right
          rw [if_neg hc]
          linarith

/-- C6 counterexample: a set holding one Timeout record of weight 19 and one
SchedulingJitter record of weight -1 (both kinds allowed by the claim)
computes a belief whose dead mass is exactly 0.95, refuting the strict
inequality. -/
theorem computeBelief_timeout_only_cex :
    (∀ e ∈ c6Set.evidence, e.Kind = .KindTimeout ∨ e.Kind = .KindSchedulingJitter) ∧
    (c6Set.ComputeBelief 0).dead = 0.95 ∧
    ¬((c6Set.ComputeBelief 0).dead < 0.95) := by
  have htw : c6Set.totalWeight 0 = 18 := by
    norm_num [c6Set, EvidenceSet.totalWeight, Evidence.EffectiveWeight, pow, AgeSince]
  have haw : c6Set.aliveWeight 0 = 0 := by
    norm_num [c6Set, EvidenceSet.aliveWeight, Evidence.EffectiveWeight, pow, AgeSince,
      Evidence.SuggestsAlive]
    simp
  have hdw : c6Set.deadWeight 0 = 19 := by
    norm_num [c6Set, EvidenceSet.deadWeight, Evidence.EffectiveWeight, pow, AgeSince,
      Evidence.SuggestsAlive, Evidence.SuggestsDead]
    simp
  have heval : (c6Set.ComputeBelief 0).dead = 0.95 := by
    unfold EvidenceSet.ComputeBelief
    rw [htw, haw, hdw]
    rw [show c6Set.evidence.isEmpty = false from rfl]
    norm_num [min_def, NewBelief, NewConfidence, BeliefSumEpsilon, UnknownBelief]
  refine ⟨?_, heval, by rw [heval]; norm_num⟩
  intro e he
  simp only [c6Set] at he
  fin_cases he <;> simp

/-- Witness for C6 amended at a set of two nonnegative-weight timeout
records. -/
theorem computeBelief_dead_bounded_witness :
    (((NewEvidenceSet.Add (NewTimeout 1 100 5000 ⟨1, 0⟩ ⟨2, 0⟩)).Add
        (NewTimeout 2 100 5000 ⟨1, 0⟩ ⟨2, 0⟩)).ComputeBelief 2).dead ≤ 0.95 ∧
    (((NewEvidenceSet.Add (NewTimeout 1 100 5000 ⟨1, 0⟩ ⟨2, 0⟩)).Add
        (NewTimeout 2 100 5000 ⟨1, 0⟩ ⟨2, 0⟩)).ComputeBelief 2).dead < 0.95 := by
  have hkind : ∀ e ∈ ((NewEvidenceSet.Add (NewTimeout 1 100 5000 ⟨1, 0⟩ ⟨2, 0⟩)).Add
      (NewTimeout 2 100 5000 ⟨1, 0⟩ ⟨2, 0⟩)).evidence,
      e.Kind = .KindTimeout ∨ e.Kind = .KindSchedulingJitter := by
    intro e he
    simp only [NewEvidenceSet, EvidenceSet.Add, NewTimeout, List.nil_append,
      List.cons_append] at he
    fin_cases he <;> simp
  have hw : ∀ e ∈ ((NewEvidenceSet.Add (NewTimeout 1 100 5000 ⟨1, 0⟩ ⟨2, 0⟩)).Add
      (NewTimeout 2 100 5000 ⟨1, 0⟩ ⟨2, 0⟩)).evidence, 0 ≤ e.Weight := by
    intro e he
    simp only [NewEvidenceSet, EvidenceSet.Add, NewTimeout, List.nil_append,
      List.cons_append] at he
    fin_cases he <;> norm_num
  have hmain := computeBelief_dead_bounded _ 2 hkind
  exact ⟨hmain.1, hmain.2 hw⟩

/-! ## Helper lemmas for the real-valued aggregator/oracle pipeline -/

theorem NewBeliefR_eq_some_of (a d u : ℝ) (h0a : 0 ≤ a) (h1a : a ≤ 1) (h0d : 0 ≤ d)
    (h1d : d ≤ 1) (h0u : 0 ≤ u) (h1u : u ≤ 1) (hsum : a + d + u = 1) :
    NewBeliefR a d u = some ⟨a, d, u⟩ := by
  unfold NewBeliefR NewConfidenceR
  rw [show a + d + u - 1 = 0 by linarith, abs_zero]
  rw [if_neg (by norm_num [BeliefSumEpsilon] : ¬(((BeliefSumEpsilon : ℚ) : ℝ) < 0))]
  rw [if_neg (not_lt.mpr h0a), if_neg (not_lt.mpr h1a), if_neg (not_lt.mpr h0d),
    if_neg (not_lt.mpr h1d), if_neg (not_lt.mpr h0u), if_neg (not_lt.mpr h1u)]

theorem sqrt_cast_inv400 : Real.sqrt ((( 1 / 400 : ℚ) : ℝ)) = 1 / 20 := by
  rw [show (((1 / 400 : ℚ) : ℝ)) = (1 / 20) ^ 2 by push_cast; norm_num]
  exact Real.sqrt_sq (by norm_num)

/-! ## C3: the oracle's insufficient-confidence refusal rule -/

/-- C3 amended: on the path where the target is not dead, has reports and is
not in confirmed partition, the oracle refuses with reason "insufficient
confidence to meet requirements" exactly when the aggregated alive mass is
positive but below MinAlive AND the aggregated dead mass is positive but
below MinDead (the source combines the two threshold checks with a
conjunction, so a query meeting neither threshold on only one side is
answered, not refused). -/
theorem query_requirement_refusal (o : Oracle) (target : NodeID) (req : RequiredConfidence)
    (h1 : o.finality.IsDead target = false)
    (h2 : o.reports target ≠ [])
    (h3 : (o.partition.Analyze (o.reports target) target).1 ≠ .ConfirmedPartition) :
    ((o.QueryWithRequirement target req).Refused = true ∧
      (o.QueryWithRequirement target req).RefusalReason =
        "insufficient confidence to meet requirements") ↔
    (0 < (Aggregator.Aggregate o.registry (o.reports target)).Belief.alive ∧
      (Aggregator.Aggregate o.registry (o.reports target)).Belief.alive < (req.MinAlive : ℝ) ∧
      0 < (Aggregator.Aggregate o.registry (o.reports target)).Belief.dead ∧
      (Aggregator.Aggregate o.registry (o.reports target)).Belief.dead < (req.MinDead : ℝ)) := by
  unfold Oracle.QueryWithRequirement
  rw [if_neg (by rw [h1]; simp)]
  rw [if_neg (by simpa [List.isEmpty_iff] using h2)]
  rw [if_neg h3]
  by_cases hc : 0 < (Aggregator.Aggregate o.registry (o.reports target)).Belief.alive ∧
      (Aggregator.Aggregate o.registry (o.reports target)).Belief.alive < (req.MinAlive : ℝ) ∧
      0 < (Aggregator.Aggregate o.registry (o.reports target)).Belief.dead ∧
      (Aggregator.Aggregate o.registry (o.reports target)).Belief.dead < (req.MinDead : ℝ)
  · rw [if_pos hc]
    exact ⟨fun _ => hc, fun _ => ⟨rfl, rfl⟩⟩
  · rw [if_neg hc]
    split_ifs with hm hd
    · exact ⟨fun ⟨_, hr⟩ => absurd hr (by simp), fun hx => absurd hx hc⟩
    · exact ⟨fun ⟨hr, _⟩ => absurd hr (by simp), fun hx => absurd hx hc⟩
    · exact ⟨fun ⟨hr, _⟩ => absurd hr (by simp), fun hx => absurd hx hc⟩

theorem c3_isDead_eval : c3Oracle.finality.IsDead ⟨99, 0⟩ = false := rfl

theorem c3_reports_eval : c3Oracle.reports ⟨99, 0⟩ =
    [⟨⟨10, 0⟩, ⟨99, 0⟩, ⟨0.7, 0, 0.3⟩, 0⟩, ⟨⟨11, 0⟩, ⟨99, 0⟩, ⟨0.6, 0, 0.4⟩, 0⟩] := by
  simp [c3Oracle, Oracle.New, Oracle.ReceiveReport]

theorem c3_partition_eval :
    c3Oracle.partition.Analyze
      [⟨⟨10, 0⟩, ⟨99, 0⟩, ⟨0.7, 0, 0.3⟩, 0⟩, ⟨⟨11, 0⟩, ⟨99, 0⟩, ⟨0.6, 0, 0.4⟩, 0⟩] ⟨99, 0⟩ =
      (.NoPartition, none) := by
  have hD1 : (⟨0.7, 0, 0.3⟩ : Belief).Dominant = .StateAlive := by
    norm_num [Belief.Dominant, DominantMargin]
  have hD2 : (⟨0.6, 0, 0.4⟩ : Belief).Dominant = .StateAlive := by
    norm_num [Belief.Dominant, DominantMargin]
  have hdet : c3Oracle.partition = NewDetector := rfl
  rw [hdet]
  unfold Detector.Analyze
  rw [if_neg (by norm_num)]
  rw [if_neg (by simp [hD1, hD2])]
  rw [if_neg (by simp [hD1, hD2]; norm_num)]

theorem c3_trust10 : c3Oracle.registry.GetTrust ⟨10, 0⟩ = 0.8 := by
  have hreg : c3Oracle.registry = (NewRegistry.Register ⟨10, 0⟩).Register ⟨11, 0⟩ := rfl
  rw [hreg]
  simp [Registry.GetTrust, Registry.Register, NewRegistry, DefaultTrust]

theorem c3_trust11 : c3Oracle.registry.GetTrust ⟨11, 0⟩ = 0.8 := by
  have hreg : c3Oracle.registry = (NewRegistry.Register ⟨10, 0⟩).Register ⟨11, 0⟩ := rfl
  rw [hreg]
  simp [Registry.GetTrust, Registry.Register, NewRegistry, DefaultTrust]

theorem c3_totalTrust_eval :
    Aggregator.totalTrust c3Oracle.registry
      [⟨⟨10, 0⟩, ⟨99, 0⟩, ⟨0.7, 0, 0.3⟩, 0⟩, ⟨⟨11, 0⟩, ⟨99, 0⟩, ⟨0.6, 0, 0.4⟩, 0⟩] = 8 / 5 := by
  simp only [Aggregator.totalTrust, List.map_cons, List.map_nil, List.sum_cons, List.sum_nil]
  rw [c3_trust10, c3_trust11]
  norm_num

theorem c3_avgAlive_eval :
    Aggregator.avgAlive c3Oracle.registry
      [⟨⟨10, 0⟩, ⟨99, 0⟩, ⟨0.7, 0, 0.3⟩, 0⟩, ⟨⟨11, 0⟩, ⟨99, 0⟩, ⟨0.6, 0, 0.4⟩, 0⟩] = 13 / 20 := by
  unfold Aggregator.avgAlive
  rw [c3_totalTrust_eval]
  simp only [List.map_cons, List.map_nil, List.sum_cons, List.sum_nil]
  rw [c3_trust10, c3_trust11]
  norm_num

theorem c3_avgDead_eval :
    Aggregator.avgDead c3Oracle.registry
      [⟨⟨10, 0⟩, ⟨99, 0⟩, ⟨0.7, 0, 0.3⟩, 0⟩, ⟨⟨11, 0⟩, ⟨99, 0⟩, ⟨0.6, 0, 0.4⟩, 0⟩] = 0 := by
  unfold Aggregator.avgDead
  rw [c3_totalTrust_eval]
  simp only [List.map_cons, List.map_nil, List.sum_cons, List.sum_nil]
  rw [c3_trust10, c3_trust11]
  norm_num

theorem c3_avgUnknown_eval :
    Aggregator.avgUnknown c3Oracle.registry
      [⟨⟨10, 0⟩, ⟨99, 0⟩, ⟨0.7, 0, 0.3⟩, 0⟩, ⟨⟨11, 0⟩, ⟨99, 0⟩, ⟨0.6, 0, 0.4⟩, 0⟩] = 7 / 20 := by
  unfold Aggregator.avgUnknown
  rw [c3_totalTrust_eval]
  simp only [List.map_cons, List.map_nil, List.sum_cons, List.sum_nil]
  rw [c3_trust10, c3_trust11]
  norm_num

theorem c3_disagreement_eval :
    Aggregator.calculateDisagreement
      [⟨⟨10, 0⟩, ⟨99, 0⟩, ⟨0.7, 0, 0.3⟩, 0⟩, ⟨⟨11, 0⟩, ⟨99, 0⟩, ⟨0.6, 0, 0.4⟩, 0⟩]
      (13 / 20) 0 = 1 / 20 := by
  unfold Aggregator.calculateDisagreement
  rw [if_neg (by norm_num)]
  have hvar : Aggregator.disagreementVariance
      [⟨⟨10, 0⟩, ⟨99, 0⟩, ⟨0.7, 0, 0.3⟩, 0⟩, ⟨⟨11, 0⟩, ⟨99, 0⟩, ⟨0.6, 0, 0.4⟩, 0⟩]
      (13 / 20) 0 = 1 / 400 := by
    norm_num [Aggregator.disagreementVariance]
  rw [hvar, sqrt_cast_inv400]
  rw [min_eq_left (by norm_num)]

theorem c3_correlation_eval :
    Aggregator.detectCorrelation
      [⟨⟨10, 0⟩, ⟨99, 0⟩, ⟨0.7, 0, 0.3⟩, 0⟩, ⟨⟨11, 0⟩, ⟨99, 0⟩, ⟨0.6, 0, 0.4⟩, 0⟩] = 4 / 5 := by
  unfold Aggregator.detectCorrelation
  rw [if_neg (by norm_num)]
  norm_num [min_def]
  rw [abs_of_nonneg (show (0 : ℚ) ≤ 1 / 10 by norm_num)]
  norm_num

theorem c3_aggregate_eval :
    (Aggregator.Aggregate c3Oracle.registry
      [⟨⟨10, 0⟩, ⟨99, 0⟩, ⟨0.7, 0, 0.3⟩, 0⟩, ⟨⟨11, 0⟩, ⟨99, 0⟩, ⟨0.6, 0, 0.4⟩, 0⟩]).Belief =
      ⟨(13 / 20 : ℝ), 0, 7 / 20⟩ := by
  simp only [Aggregator.Aggregate]
  rw [if_neg (by rw [c3_totalTrust_eval]; norm_num)]
  rw [c3_avgAlive_eval, c3_avgDead_eval, c3_avgUnknown_eval, c3_disagreement_eval,
    c3_correlation_eval]
  rw [if_neg (by norm_num)]
  try dsimp only
  rw [if_neg (by norm_num)]
  try dsimp only
  rw [if_neg (by push_cast; norm_num)]
  try dsimp only
  rw [NewBeliefR_eq_some_of _ _ _ (by push_cast; norm_num) (by push_cast; norm_num)
    (by push_cast; norm_num) (by push_cast; norm_num) (by push_cast; norm_num)
    (by push_cast; norm_num) (by push_cast; norm_num)]
  show BeliefR.mk _ _ _ = _
  push_cast
  norm_num

theorem c3_query_eval :
    (c3Oracle.QueryWithRequirement ⟨99, 0⟩ c3Req).Refused = false ∧
    (c3Oracle.QueryWithRequirement ⟨99, 0⟩ c3Req).Belief = ⟨(13 / 20 : ℝ), 0, 7 / 20⟩ := by
  simp only [Oracle.QueryWithRequirement]
  rw [c3_reports_eval]
  rw [if_neg (by rw [c3_isDead_eval]; simp)]
  rw [if_neg (by simp)]
  rw [c3_partition_eval]
  rw [if_neg (by simp)]
  rw [c3_aggregate_eval]
  rw [if_neg (by norm_num [c3Req])]
  rw [if_neg (by norm_num [c3Req])]
  exact ⟨rfl, rfl⟩

/-- C3 counterexample: an oracle with two alive-leaning reports about a live,
non-partitioned target whose aggregated belief is dominant-alive with alive
mass 13/20, positive and below the required MinAlive = 0.7; the claim demands
a refusal, but the oracle answers (Refused = false) because the aggregated
dead mass is not also positive-and-below MinDead. -/
theorem query_requirement_refusal_cex :
    c3Oracle.finality.IsDead ⟨99, 0⟩ = false ∧
    c3Oracle.reports ⟨99, 0⟩ ≠ [] ∧
    (c3Oracle.partition.Analyze (c3Oracle.reports ⟨99, 0⟩) ⟨99, 0⟩).1 ≠ .ConfirmedPartition ∧
    (c3Oracle.QueryWithRequirement ⟨99, 0⟩ c3Req).Belief.Dominant = .StateAlive ∧
    0 < (c3Oracle.QueryWithRequirement ⟨99, 0⟩ c3Req).Belief.alive ∧
    (c3Oracle.QueryWithRequirement ⟨99, 0⟩ c3Req).Belief.alive < (c3Req.MinAlive : ℝ) ∧
    (c3Oracle.QueryWithRequirement ⟨99, 0⟩ c3Req).Refused = false := by
  obtain ⟨href, hbel⟩ := c3_query_eval
  refine ⟨c3_isDead_eval, by rw [c3_reports_eval]; simp,
    by rw [c3_reports_eval, c3_partition_eval]; simp, ?_, ?_, ?_, href⟩
  · rw [hbel]
    unfold BeliefR.Dominant
    rw [if_pos (by constructor <;> (push_cast [DominantMargin]; norm_num))]
  · rw [hbel]
    norm_num
  · rw [hbel]
    norm_num [c3Req]

/-- Witness for C3 amended at the concrete two-report oracle: the refusal
equivalence instantiated where the aggregate meets neither side's threshold
pair, so both sides of the equivalence are false. -/
theorem query_requirement_refusal_witness :
    ((c3Oracle.QueryWithRequirement ⟨99, 0⟩ c3Req).Refused = true ∧
      (c3Oracle.QueryWithRequirement ⟨99, 0⟩ c3Req).RefusalReason =
        "insufficient confidence to meet requirements") ↔
    (0 < (Aggregator.Aggregate c3Oracle.registry (c3Oracle.reports ⟨99, 0⟩)).Belief.alive ∧
      (Aggregator.Aggregate c3Oracle.registry
        (c3Oracle.reports ⟨99, 0⟩)).Belief.alive < (c3Req.MinAlive : ℝ) ∧
      0 < (Aggregator.Aggregate c3Oracle.registry (c3Oracle.reports ⟨99, 0⟩)).Belief.dead ∧
      (Aggregator.Aggregate c3Oracle.registry
        (c3Oracle.reports ⟨99, 0⟩)).Belief.dead < (c3Req.MinDead : ℝ)) :=
  query_requirement_refusal c3Oracle ⟨99, 0⟩ c3Req c3_isDead_eval
    (by rw [c3_reports_eval]; simp)
    (by rw [c3_reports_eval, c3_partition_eval]; simp)

/-! ## C8: correlation penalty in the aggregator -/

theorem aggregate_penalty_formula (reg : Registry) (r1 r2 : WitnessReport)
    (rs : List WitnessReport)
    (h1 : ¬(Aggregator.totalTrust reg (r1 :: r2 :: rs) < 0.001))
    (h2 : 0.9 < Aggregator.detectCorrelation (r1 :: r2 :: rs))
    (h3 : ¬((0.3 : ℝ) < Aggregator.calculateDisagreement (r1 :: r2 :: rs)
        (Aggregator.avgAlive reg (r1 :: r2 :: rs)) (Aggregator.avgDead reg (r1 :: r2 :: rs))))
    (h4 : ¬(1 - Aggregator.avgAlive reg (r1 :: r2 :: rs) * 0.7 -
        Aggregator.avgDead reg (r1 :: r2 :: rs) * 0.7 < 0.05))
    (ha0 : 0 ≤ Aggregator.avgAlive reg (r1 :: r2 :: rs))
    (hd0 : 0 ≤ Aggregator.avgDead reg (r1 :: r2 :: rs)) :
    (Aggregator.Aggregate reg (r1 :: r2 :: rs)).Belief.alive =
        ((Aggregator.avgAlive reg (r1 :: r2 :: rs) * 0.7 : ℚ) : ℝ) ∧
    (Aggregator.Aggregate reg (r1 :: r2 :: rs)).Belief.dead =
        ((Aggregator.avgDead reg (r1 :: r2 :: rs) * 0.7 : ℚ) : ℝ) ∧
    (Aggregator.Aggregate reg (r1 :: r2 :: rs)).Belief.unknown =
        ((1 - Aggregator.avgAlive reg (r1 :: r2 :: rs) * 0.7 -
          Aggregator.avgDead reg (r1 :: r2 :: rs) * 0.7 : ℚ) : ℝ) := by
  have hq4 := not_lt.mp h4
  have ha' : (0 : ℚ) ≤ Aggregator.avgAlive reg (r1 :: r2 :: rs) * 0.7 :=
    mul_nonneg ha0 (by norm_num)
  have hd' : (0 : ℚ) ≤ Aggregator.avgDead reg (r1 :: r2 :: rs) * 0.7 :=
    mul_nonneg hd0 (by norm_num)
  have ha1 : Aggregator.avgAlive reg (r1 :: r2 :: rs) * 0.7 ≤ 1 := by linarith
  have hd1 : Aggregator.avgDead reg (r1 :: r2 :: rs) * 0.7 ≤ 1 := by linarith
  have hu0 : (0 : ℚ) ≤ 1 - Aggregator.avgAlive reg (r1 :: r2 :: rs) * 0.7 -
      Aggregator.avgDead reg (r1 :: r2 :: rs) * 0.7 := by linarith
  have hu1 : 1 - Aggregator.avgAlive reg (r1 :: r2 :: rs) * 0.7 -
      Aggregator.avgDead reg (r1 :: r2 :: rs) * 0.7 ≤ 1 := by linarith
  simp only [Aggregator.Aggregate]
  rw [if_neg h1]
  rw [if_pos h2]
  try dsimp only
  rw [if_neg h3]
  try dsimp only
  rw [if_neg (show ¬(((1 - Aggregator.avgAlive reg (r1 :: r2 :: rs) * 0.7 -
      Aggregator.avgDead reg (r1 :: r2 :: rs) * 0.7 : ℚ) : ℝ) < 0.05) by
    rw [show (0.05 : ℝ) = ((0.05 : ℚ) : ℝ) by norm_num]
    exact_mod_cast h4)]
  try dsimp only
  rw [NewBeliefR_eq_some_of _ _ _ (by exact_mod_cast ha') (by exact_mod_cast ha1)
    (by exact_mod_cast hd') (by exact_mod_cast hd1) (by exact_mod_cast hu0)
    (by exact_mod_cast hu1) (by push_cast; ring)]
  exact ⟨rfl, rfl, rfl⟩

theorem register_getTrust (r : Registry) (w id : NodeID) (h : r.GetTrust id = DefaultTrust) :
    (r.Register w).GetTrust id = DefaultTrust := by
  unfold Registry.Register
  cases hw : r.witnesses w with
  | some v => exact h
  | none =>
    unfold Registry.GetTrust at h ⊢
    dsimp only
    by_cases hid : id = w
    · rw [if_pos hid]
    · rw [if_neg hid]
      exact h

theorem c8_trust (id : NodeID) : c8Oracle.registry.GetTrust id = DefaultTrust := by
  have hreg : c8Oracle.registry =
      (((((((((NewRegistry.Register ⟨1, 0⟩).Register ⟨2, 0⟩).Register ⟨3, 0⟩).Register
        ⟨4, 0⟩).Register ⟨5, 0⟩).Register ⟨6, 0⟩).Register ⟨7, 0⟩).Register ⟨8, 0⟩).Register
        ⟨9, 0⟩).Register ⟨10, 0⟩ := rfl
  rw [hreg]
  iterate 10 apply register_getTrust
  rfl

theorem c8_reports_eval : c8Oracle.reports ⟨99, 0⟩ =
    [⟨⟨1, 0⟩, ⟨99, 0⟩, c8Belief, 0⟩, ⟨⟨2, 0⟩, ⟨99, 0⟩, c8Belief, 0⟩,
     ⟨⟨3, 0⟩, ⟨99, 0⟩, c8Belief, 0⟩, ⟨⟨4, 0⟩, ⟨99, 0⟩, c8Belief, 0⟩,
     ⟨⟨5, 0⟩, ⟨99, 0⟩, c8Belief, 0⟩, ⟨⟨6, 0⟩, ⟨99, 0⟩, c8Belief, 0⟩,
     ⟨⟨7, 0⟩, ⟨99, 0⟩, c8Belief, 0⟩, ⟨⟨8, 0⟩, ⟨99, 0⟩, c8Belief, 0⟩,
     ⟨⟨9, 0⟩, ⟨99, 0⟩, c8Belief, 0⟩, ⟨⟨10, 0⟩, ⟨99, 0⟩, c8Belief, 0⟩] := by
  simp [c8Oracle, Oracle.New, Oracle.ReceiveReport]

theorem c8_totalTrust_eval :
    Aggregator.totalTrust c8Oracle.registry (c8Oracle.reports ⟨99, 0⟩) = 8 := by
  rw [c8_reports_eval]
  simp only [Aggregator.totalTrust, List.map_cons, List.map_nil, List.sum_cons,
    List.sum_nil, c8_trust]
  norm_num [DefaultTrust]

theorem c8_avgAlive_eval :
    Aggregator.avgAlive c8Oracle.registry (c8Oracle.reports ⟨99, 0⟩) = 19 / 20 := by
  unfold Aggregator.avgAlive
  rw [c8_totalTrust_eval, c8_reports_eval]
  simp only [List.map_cons, List.map_nil, List.sum_cons, List.sum_nil, c8_trust]
  norm_num [DefaultTrust, c8Belief]

theorem c8_avgDead_eval :
    Aggregator.avgDead c8Oracle.registry (c8Oracle.reports ⟨99, 0⟩) = 3 / 100 := by
  unfold Aggregator.avgDead
  rw [c8_totalTrust_eval, c8_reports_eval]
  simp only [List.map_cons, List.map_nil, List.sum_cons, List.sum_nil, c8_trust]
  norm_num [DefaultTrust, c8Belief]

theorem c8_disagreement_eval :
    Aggregator.calculateDisagreement (c8Oracle.reports ⟨99, 0⟩)
      (Aggregator.avgAlive c8Oracle.registry (c8Oracle.reports ⟨99, 0⟩))
      (Aggregator.avgDead c8Oracle.registry (c8Oracle.reports ⟨99, 0⟩)) = 0 := by
  rw [c8_avgAlive_eval, c8_avgDead_eval]
  unfold Aggregator.calculateDisagreement
  rw [if_neg (by rw [c8_reports_eval]; norm_num)]
  have hvar : Aggregator.disagreementVariance (c8Oracle.reports ⟨99, 0⟩) (19 / 20) (3 / 100)
      = 0 := by
    rw [c8_reports_eval]
    norm_num [Aggregator.disagreementVariance, c8Belief]
  rw [hvar]
  rw [show (((0 : ℚ) : ℝ)) = (0 : ℝ) by norm_num, Real.sqrt_zero]
  rw [min_eq_left (by norm_num)]

theorem c8_correlation_eval :
    Aggregator.detectCorrelation (c8Oracle.reports ⟨99, 0⟩) = 1 := by
  rw [c8_reports_eval]
  unfold Aggregator.detectCorrelation
  rw [if_neg (by norm_num)]
  norm_num [c8Belief, min_def]

/-- C8: whenever the correlation score exceeds 0.9 (with total trust above
the cutoff, no disagreement widening and no unknown-floor adjustment), the
aggregated alive and dead masses are the trust-weighted averages multiplied
by 0.7 with unknown recomputed as 1 - alive - dead; consequently a query on
an oracle that received ten identical reports (0.95, 0.03, 0.02) returns a
belief with alive mass at most 0.85. -/
theorem aggregate_correlation_penalty :
    (∀ (reg : Registry) (r1 r2 : WitnessReport) (rs : List WitnessReport),
      ¬(Aggregator.totalTrust reg (r1 :: r2 :: rs) < 0.001) →
      0.9 < Aggregator.detectCorrelation (r1 :: r2 :: rs) →
      ¬((0.3 : ℝ) < Aggregator.calculateDisagreement (r1 :: r2 :: rs)
          (Aggregator.avgAlive reg (r1 :: r2 :: rs))
          (Aggregator.avgDead reg (r1 :: r2 :: rs))) →
      ¬(1 - Aggregator.avgAlive reg (r1 :: r2 :: rs) * 0.7 -
          Aggregator.avgDead reg (r1 :: r2 :: rs) * 0.7 < 0.05) →
      0 ≤ Aggregator.avgAlive reg (r1 :: r2 :: rs) →
      0 ≤ Aggregator.avgDead reg (r1 :: r2 :: rs) →
      (Aggregator.Aggregate reg (r1 :: r2 :: rs)).Belief.alive =
          ((Aggregator.avgAlive reg (r1 :: r2 :: rs) * 0.7 : ℚ) : ℝ) ∧
      (Aggregator.Aggregate reg (r1 :: r2 :: rs)).Belief.dead =
          ((Aggregator.avgDead reg (r1 :: r2 :: rs) * 0.7 : ℚ) : ℝ) ∧
      (Aggregator.Aggregate reg (r1 :: r2 :: rs)).Belief.unknown =
          ((1 - Aggregator.avgAlive reg (r1 :: r2 :: rs) * 0.7 -
            Aggregator.avgDead reg (r1 :: r2 :: rs) * 0.7 : ℚ) : ℝ)) ∧
    (c8Oracle.Query ⟨99, 0⟩).Belief.alive ≤ 0.85 := by
  constructor
  · exact aggregate_penalty_formula
  · have hagg : (Aggregator.Aggregate c8Oracle.registry
        (c8Oracle.reports ⟨99, 0⟩)).Belief.alive = ((19 / 20 * 0.7 : ℚ) : ℝ) ∧
        (Aggregator.Aggregate c8Oracle.registry
          (c8Oracle.reports ⟨99, 0⟩)).Belief.unknown =
          ((1 - 19 / 20 * 0.7 - 3 / 100 * 0.7 : ℚ) : ℝ) := by
      have h := aggregate_penalty_formula c8Oracle.registry
        ⟨⟨1, 0⟩, ⟨99, 0⟩, c8Belief, 0⟩ ⟨⟨2, 0⟩, ⟨99, 0⟩, c8Belief, 0⟩
        [⟨⟨3, 0⟩, ⟨99, 0⟩, c8Belief, 0⟩, ⟨⟨4, 0⟩, ⟨99, 0⟩, c8Belief, 0⟩,
         ⟨⟨5, 0⟩, ⟨99, 0⟩, c8Belief, 0⟩, ⟨⟨6, 0⟩, ⟨99, 0⟩, c8Belief, 0⟩,
         ⟨⟨7, 0⟩, ⟨99, 0⟩, c8Belief, 0⟩, ⟨⟨8, 0⟩, ⟨99, 0⟩, c8Belief, 0⟩,
         ⟨⟨9, 0⟩, ⟨99, 0⟩, c8Belief, 0⟩, ⟨⟨10, 0⟩, ⟨99, 0⟩, c8Belief, 0⟩]
        (by rw [← c8_reports_eval, c8_totalTrust_eval]; norm_num)
        (by rw [← c8_reports_eval, c8_correlation_eval]; norm_num)
        (by rw [← c8_reports_eval, c8_disagreement_eval]; norm_num)
        (by rw [← c8_reports_eval, c8_avgAlive_eval, c8_avgDead_eval]; norm_num)
        (by rw [← c8_reports_eval, c8_avgAlive_eval]; norm_num)
        (by rw [← c8_reports_eval, c8_avgDead_eval]; norm_num)
      rw [← c8_reports_eval] at h
      rw [c8_avgAlive_eval, c8_avgDead_eval] at h
      exact ⟨h.1, h.2.2⟩
    have hD : (c8Belief : Belief).Dominant = .StateAlive := by
      norm_num [c8Belief, Belief.Dominant, DominantMargin]
    have hpa : c8Oracle.partition.Analyze (c8Oracle.reports ⟨99, 0⟩) ⟨99, 0⟩ =
        (.NoPartition, none) := by
      rw [c8_reports_eval]
      have hdet : c8Oracle.partition = NewDetector := rfl
      rw [hdet]
      unfold Detector.Analyze
      rw [if_neg (by norm_num)]
      rw [if_neg (by simp [hD])]
      rw [if_neg (by simp [hD]; norm_num)]
    have hbel : (c8Oracle.Query ⟨99, 0⟩).Belief.alive =
        ((19 / 20 * 0.7 : ℚ) : ℝ) := by
      unfold Oracle.Query
      simp only [Oracle.QueryWithRequirement]
      rw [if_neg (by rw [show c8Oracle.finality.IsDead ⟨99, 0⟩ = false from rfl]; simp)]
      rw [if_neg (by rw [c8_reports_eval]; simp)]
      rw [hpa]
      rw [if_neg (by simp)]
      rw [if_neg (by rw [hagg.1]; push_cast; norm_num [DefaultRequirement])]
      rw [if_neg (by rw [hagg.2]; push_cast; norm_num [DefaultRequirement])]
      exact hagg.1
    rw [hbel]
    push_cast
    norm_num

/-- Witness for C8 at two identical reports under default trusts: the
penalty formula applied with every hypothesis discharged concretely. -/
theorem aggregate_correlation_penalty_witness :
    (Aggregator.Aggregate NewRegistry
      [⟨⟨1, 0⟩, ⟨99, 0⟩, c8Belief, 0⟩, ⟨⟨2, 0⟩, ⟨99, 0⟩, c8Belief, 0⟩]).Belief.alive =
      ((Aggregator.avgAlive NewRegistry
        [⟨⟨1, 0⟩, ⟨99, 0⟩, c8Belief, 0⟩, ⟨⟨2, 0⟩, ⟨99, 0⟩, c8Belief, 0⟩] * 0.7 : ℚ) : ℝ) ∧
    (Aggregator.Aggregate NewRegistry
      [⟨⟨1, 0⟩, ⟨99, 0⟩, c8Belief, 0⟩, ⟨⟨2, 0⟩, ⟨99, 0⟩, c8Belief, 0⟩]).Belief.dead =
      ((Aggregator.avgDead NewRegistry
        [⟨⟨1, 0⟩, ⟨99, 0⟩, c8Belief, 0⟩, ⟨⟨2, 0⟩, ⟨99, 0⟩, c8Belief, 0⟩] * 0.7 : ℚ) : ℝ) ∧
    (Aggregator.Aggregate NewRegistry
      [⟨⟨1, 0⟩, ⟨99, 0⟩, c8Belief, 0⟩, ⟨⟨2, 0⟩, ⟨99, 0⟩, c8Belief, 0⟩]).Belief.unknown =
      ((1 - Aggregator.avgAlive NewRegistry
          [⟨⟨1, 0⟩, ⟨99, 0⟩, c8Belief, 0⟩, ⟨⟨2, 0⟩, ⟨99, 0⟩, c8Belief, 0⟩] * 0.7 -
        Aggregator.avgDead NewRegistry
          [⟨⟨1, 0⟩, ⟨99, 0⟩, c8Belief, 0⟩, ⟨⟨2, 0⟩, ⟨99, 0⟩, c8Belief, 0⟩] * 0.7 : ℚ) : ℝ) := by
  have htt : Aggregator.totalTrust NewRegistry
      [⟨⟨1, 0⟩, ⟨99, 0⟩, c8Belief, 0⟩, ⟨⟨2, 0⟩, ⟨99, 0⟩, c8Belief, 0⟩] = 8 / 5 := by
    norm_num [Aggregator.totalTrust, Registry.GetTrust, NewRegistry, DefaultTrust]
  have haa : Aggregator.avgAlive NewRegistry
      [⟨⟨1, 0⟩, ⟨99, 0⟩, c8Belief, 0⟩, ⟨⟨2, 0⟩, ⟨99, 0⟩, c8Belief, 0⟩] = 19 / 20 := by
    unfold Aggregator.avgAlive
    rw [htt]
    norm_num [Registry.GetTrust, NewRegistry, DefaultTrust, c8Belief]
  have had : Aggregator.avgDead NewRegistry
      [⟨⟨1, 0⟩, ⟨99, 0⟩, c8Belief, 0⟩, ⟨⟨2, 0⟩, ⟨99, 0⟩, c8Belief, 0⟩] = 3 / 100 := by
    unfold Aggregator.avgDead
    rw [htt]
    norm_num [Registry.GetTrust, NewRegistry, DefaultTrust, c8Belief]
  have hdis : Aggregator.calculateDisagreement
      [⟨⟨1, 0⟩, ⟨99, 0⟩, c8Belief, 0⟩, ⟨⟨2, 0⟩, ⟨99, 0⟩, c8Belief, 0⟩]
      (Aggregator.avgAlive NewRegistry
        [⟨⟨1, 0⟩, ⟨99, 0⟩, c8Belief, 0⟩, ⟨⟨2, 0⟩, ⟨99, 0⟩, c8Belief, 0⟩])
      (Aggregator.avgDead NewRegistry
        [⟨⟨1, 0⟩, ⟨99, 0⟩, c8Belief, 0⟩, ⟨⟨2, 0⟩, ⟨99, 0⟩, c8Belief, 0⟩]) = 0 := by
    rw [haa, had]
    unfold Aggregator.calculateDisagreement
    rw [if_neg (by norm_num)]
    have hvar : Aggregator.disagreementVariance
        [⟨⟨1, 0⟩, ⟨99, 0⟩, c8Belief, 0⟩, ⟨⟨2, 0⟩, ⟨99, 0⟩, c8Belief, 0⟩]
        (19 / 20) (3 / 100) = 0 := by
      norm_num [Aggregator.disagreementVariance, c8Belief]
    rw [hvar]
    rw [show (((0 : ℚ) : ℝ)) = (0 : ℝ) by norm_num, Real.sqrt_zero]
    rw [min_eq_left (by norm_num)]
  have hcorr : Aggregator.detectCorrelation
      [⟨⟨1, 0⟩, ⟨99, 0⟩, c8Belief, 0⟩, ⟨⟨2, 0⟩, ⟨99, 0⟩, c8Belief, 0⟩] = 1 := by
    unfold Aggregator.detectCorrelation
    rw [if_neg (by norm_num)]
    norm_num [c8Belief, min_def]
  exact aggregate_penalty_formula NewRegistry _ _ _
    (by rw [htt]; norm_num)
    (by rw [hcorr]; norm_num)
    (by rw [hdis]; norm_num)
    (by rw [haa, had]; norm_num)
    (by rw [haa]; norm_num)
    (by rw [had]; norm_num)

end Styx
